import Mathlib

/-!
Shallow embedding of the `text-adventure` engine core
(`src/text_adventure/{parser,engine,models}`) in Lean 4, together with
theorems settling the frozen claims about the engine's behavior.

Python dictionaries are modelled as association lists preserving insertion
order (lookup finds the first matching key, update keeps the key's position,
a fresh key is appended at the end — the semantics of CPython dicts).
Python's dynamically typed values (flag values, `ObjectState` attributes
that can be re-assigned by the rule language's `state_changes`) are modelled
by the `PyValue` sum type with Python truthiness.  Stateful methods become
pure functions threading `GameState` explicitly.
-/

set_option autoImplicit false

namespace TextAdventure

/-- A dynamically typed Python value, as far as the engine stores or tests
one: `None`, booleans, strings and (for the `custom` attributes) dicts. -/
inductive PyValue where
  | none
  | bool (b : Bool)
  | str (s : String)
  | dict (entries : List (String × PyValue))
deriving Repr

/-- Structural (Python `==`-style) equality of `PyValue`s.  Values of
different shapes are never equal, mirroring `str == bool == None`
comparisons in CPython for the values the engine stores. -/
def PyValue.beq : PyValue → PyValue → Bool
  | .none, .none => true
  | .bool a, .bool b => a == b
  | .str a, .str b => a == b
  | .dict a, .dict b => beqList a b
  | _, _ => false
where beqList : List (String × PyValue) → List (String × PyValue) → Bool
  | [], [] => true
  | (k₁, v₁) :: t₁, (k₂, v₂) :: t₂ => k₁ == k₂ && beq v₁ v₂ && beqList t₁ t₂
  | _, _ => false

instance : BEq PyValue := ⟨PyValue.beq⟩

/-- Python truthiness: `bool(v)`. -/
def PyValue.truthy : PyValue → Bool
  | .none => false
  | .bool b => b
  | .str s => s ≠ ""
  | .dict d => ¬d.isEmpty

/-- Truthiness of an `Optional[str]` (`if x:` on a `str | None`). -/
def optTruthy : Option String → Bool
  | Option.none => false
  | some s => s ≠ ""

/-- Python `a or b` for `a : str | None` with a string fallback. -/
def pyOr (a : Option String) (b : String) : String :=
  match a with
  | some s => if s ≠ "" then s else b
  | Option.none => b

/-- Ordered-dict lookup: value of the first entry with the given key. -/
def assocGet {α : Type} : List (String × α) → String → Option α
  | [], _ => Option.none
  | (k', v) :: rest, k => if k' = k then some v else assocGet rest k

/-- Ordered-dict lookup with a `PyValue` key: dict keys are strings, so a
non-string key never matches (Python `==` between a str and non-str). -/
def assocGetV {α : Type} (l : List (String × α)) : PyValue → Option α
  | .str s => assocGet l s
  | _ => Option.none

/-- Ordered-dict assignment `d[k] = v`: update in place if present,
append otherwise. -/
def assocSet {α : Type} : List (String × α) → String → α → List (String × α)
  | [], k, v => [(k, v)]
  | (k', v') :: rest, k, v =>
      if k' = k then (k', v) :: rest else (k', v') :: assocSet rest k v

/-- In-place update of an existing entry; a no-op when the key is absent
(mirrors the engine's `state.objects.get(id)`-guarded mutations). -/
def assocUpdate {α : Type} : List (String × α) → String → (α → α) → List (String × α)
  | [], _, _ => []
  | (k', v) :: rest, k, f =>
      if k' = k then (k', f v) :: rest else (k', v) :: assocUpdate rest k f

/-- Python `str.split()` with no argument: split on runs of whitespace,
dropping empty pieces. -/
def pySplit (s : String) : List String :=
  go s.data []
where
  go : List Char → List Char → List String
    | [], cur => if cur.isEmpty then [] else [String.mk cur.reverse]
    | c :: cs, cur =>
        if c.isWhitespace then
          if cur.isEmpty then go cs [] else String.mk cur.reverse :: go cs []
        else go cs (c :: cur)

/-- Python `sub in s` on strings (substring containment). -/
def pyContains (s sub : String) : Bool :=
  go s.data sub.data
where
  go : List Char → List Char → Bool
    | s, sub => sub.isPrefixOf s ||
        match s with
        | [] => false
        | _ :: tl => go tl sub

/-- Python `" ".join(words)`. -/
def joinSp (words : List String) : String :=
  String.intercalate " " words

/-- Python `str.capitalize()`: first character upper-cased, the rest
lower-cased. -/
def pyCapitalize (s : String) : String :=
  match s.data with
  | [] => ""
  | c :: cs => String.mk (c.toUpper :: cs.map Char.toLower)

/-- The single-quote character, `'`. -/
def sq : Char := Char.ofNat 39

/-- Python `str.lower()` (character-wise; inputs are ASCII). -/
def pyToLower (s : String) : String :=
  String.mk (s.data.map Char.toLower)

/-- Python `str.strip()`: remove leading and trailing whitespace. -/
def pyTrim (s : String) : String :=
  String.mk (((s.data.dropWhile Char.isWhitespace).reverse.dropWhile
    Char.isWhitespace).reverse)

/-- Python `str.startswith(pre)`. -/
def pyStartsWith (s pre : String) : Bool :=
  pre.data.isPrefixOf s.data

/-- Python `str.split(sep)` for a non-empty separator: non-overlapping
left-to-right splitting (for an empty separator, which no caller passes,
the string is returned whole).  The `skip` counter consumes the remainder
of a just-matched separator so the recursion stays structural. -/
def pySplitOnStr (s sep : String) : List String :=
  if sep = "" then [s] else go s.data [] 0
where
  go : List Char → List Char → Nat → List String
    | [], cur, _ => [String.mk cur.reverse]
    | c :: cs, cur, skip =>
        match skip with
        | n + 1 => go cs cur n
        | 0 =>
            if sep.data.isPrefixOf (c :: cs) then
              String.mk cur.reverse :: go cs [] (sep.length - 1)
            else go cs (c :: cur) 0

/-- Python `str.replace(pat, repl)`: replace every non-overlapping
occurrence left to right.  The `skip` counter consumes the remainder of a
just-matched pattern so the recursion stays structural. -/
def pyReplace (s pat repl : String) : String :=
  if pat = "" then
    -- Python interleaves the replacement around every character
    String.mk (repl.data ++ s.data.flatMap (fun c => c :: repl.data))
  else String.mk (go s.data 0)
where
  go : List Char → Nat → List Char
    | [], _ => []
    | c :: cs, skip =>
        match skip with
        | n + 1 => go cs n
        | 0 =>
            if pat.data.isPrefixOf (c :: cs) then
              repl.data ++ go cs (pat.length - 1)
            else c :: go cs 0

/-! ## models/game.py — the static game definition -/

/-- `Exit` (models/game.py): a rich exit record. -/
structure Exit where
  target : String
  locked : Bool := false
  lock_message : String := "The way is locked."
  unlock_object : Option String := Option.none
  hidden : Bool := false
deriving Repr, DecidableEq

/-- An entry of `Room.exits : dict[str, Exit | str]`. -/
inductive ExitTarget where
  | str (room_id : String)
  | exitRec (e : Exit)
deriving Repr, DecidableEq

/-- `Room` (models/game.py).  `ascii_art` and `dark` are carried for
completeness; the engine core never reads them. -/
structure Room where
  id : String
  name : String
  description : String
  exits : List (String × ExitTarget) := []
  objects : List String := []
  first_visit_description : Option String := Option.none
  dark : Bool := false
deriving Repr, DecidableEq

/-- `ObjectAction` (models/game.py): a condition-gated custom action. -/
structure ObjectAction where
  message : String
  condition : Option String := Option.none
  fail_message : Option String := Option.none
  state_changes : List (String × PyValue) := []
  consumes_object : Bool := false
  reveals_object : Option String := Option.none
  moves_player : Option String := Option.none
deriving Repr

/-- An entry of `GameObject.actions : dict[str, ObjectAction | str]`. -/
inductive ActionSpec where
  | str (s : String)
  | act (a : ObjectAction)
deriving Repr

/-- `GameObject` (models/game.py). -/
structure GameObject where
  id : String
  name : String
  adjectives : List String := []
  description : String := ""
  examine_text : Option String := Option.none
  location : String
  takeable : Bool := true
  droppable : Bool := true
  readable : Bool := false
  read_text : Option String := Option.none
  openable : Bool := false
  is_open : Bool := false
  container : Bool := false
  contains : List String := []
  lockable : Bool := false
  locked : Bool := false
  key_object : Option String := Option.none
  light_source : Bool := false
  is_lit : Bool := false
  wearable : Bool := false
  worn : Bool := false
  actions : List (String × ActionSpec) := []
  scenery : Bool := false
  hidden : Bool := false
deriving Repr

/-- `VerbDefinition` (models/game.py): a game-defined custom verb. -/
structure VerbDefinition where
  verb : String
  aliases : List String := []
  requires_object : Bool := false
  requires_indirect : Bool := false
  prepositions : List String := []
  default_message : String := "Nothing happens."
deriving Repr

/-- The `type` tag of a `WinCondition`. -/
inductive WCType where
  | reach_room
  | have_object
  | flag_set
  | all_of
  | any_of
deriving Repr, DecidableEq

/-- `WinCondition` (models/game.py).  The Python model stores
`conditions : list[WinCondition] | None`; the engine only ever tests its
truthiness (`if not condition.conditions`), under which `None` and `[]`
coincide, so both are represented by `[]` here. -/
inductive WinCondition where
  | mk (ty : WCType) (room object flag : Option String)
       (conditions : List WinCondition) (win_message : String)
deriving Repr

def WinCondition.ty : WinCondition → WCType
  | .mk t _ _ _ _ _ => t

def WinCondition.room : WinCondition → Option String
  | .mk _ r _ _ _ _ => r

def WinCondition.object : WinCondition → Option String
  | .mk _ _ o _ _ _ => o

def WinCondition.flag : WinCondition → Option String
  | .mk _ _ _ f _ _ => f

def WinCondition.conditions : WinCondition → List WinCondition
  | .mk _ _ _ _ cs _ => cs

def WinCondition.win_message : WinCondition → String
  | .mk _ _ _ _ _ m => m

/-- `InitialState` (models/game.py). -/
structure InitialState where
  current_room : String
  inventory : List String := []
  flags : List (String × PyValue) := []
deriving Repr

/-- `Game` (models/game.py): the root of the static world definition.
The `metadata` block is not read by the engine core and is omitted. -/
structure Game where
  rooms : List Room
  objects : List GameObject := []
  verbs : List VerbDefinition := []
  initial_state : InitialState
  win_condition : WinCondition
deriving Repr

/-- `Game.get_room`: first room with the given id. -/
def Game.get_room (g : Game) (room_id : String) : Option Room :=
  g.rooms.find? (fun r => r.id == room_id)

/-- `Game.get_object`: first object with the given id. -/
def Game.get_object (g : Game) (object_id : String) : Option GameObject :=
  g.objects.find? (fun o => o.id == object_id)

/-- `Game.get_object` called with a dynamically typed id (the engine passes
`obj_state.location` here); a non-string never equals a string id. -/
def Game.get_objectV (g : Game) : PyValue → Option GameObject
  | .str s => g.get_object s
  | _ => Option.none

/-! ## models/state.py — the mutable session state -/

/-- `ObjectState` (models/state.py).  Every attribute is a `PyValue`
because the rule language's `state_changes` can `setattr` arbitrary values
onto these fields; all reads are either truthiness tests or string
comparisons, matching `PyValue.truthy` and `PyValue` equality. -/
structure ObjectState where
  location : PyValue
  is_open : PyValue := .bool false
  locked : PyValue := .bool false
  is_lit : PyValue := .bool false
  worn : PyValue := .bool false
  hidden : PyValue := .bool false
  examined : PyValue := .bool false
  custom : PyValue := .dict []
deriving Repr

/-- `hasattr(obj_state, attr)` for the fields of `ObjectState`. -/
def objectStateHasAttr (attr : String) : Bool :=
  attr = "location" || attr = "is_open" || attr = "locked" || attr = "is_lit" ||
  attr = "worn" || attr = "hidden" || attr = "examined" || attr = "custom"

/-- `setattr(obj_state, attr, value)` for the fields of `ObjectState`. -/
def ObjectState.setAttr (st : ObjectState) (attr : String) (v : PyValue) : ObjectState :=
  if attr = "location" then { st with location := v }
  else if attr = "is_open" then { st with is_open := v }
  else if attr = "locked" then { st with locked := v }
  else if attr = "is_lit" then { st with is_lit := v }
  else if attr = "worn" then { st with worn := v }
  else if attr = "hidden" then { st with hidden := v }
  else if attr = "examined" then { st with examined := v }
  else if attr = "custom" then { st with custom := v }
  else st

/-- `getattr(obj_state, attr)` for the fields of `ObjectState`. -/
def ObjectState.getAttr (st : ObjectState) (attr : String) : PyValue :=
  if attr = "location" then st.location
  else if attr = "is_open" then st.is_open
  else if attr = "locked" then st.locked
  else if attr = "is_lit" then st.is_lit
  else if attr = "worn" then st.worn
  else if attr = "hidden" then st.hidden
  else if attr = "examined" then st.examined
  else st.custom

/-- `RoomState` (models/state.py). -/
structure RoomState where
  visited : Bool := false
  custom : PyValue := .dict []
deriving Repr

/-- `GameState` (models/state.py): the complete mutable session state. -/
structure GameState where
  current_room : String
  inventory : List String := []
  turns : Nat := 0
  score : Int := 0
  flags : List (String × PyValue) := []
  objects : List (String × ObjectState) := []
  rooms : List (String × RoomState) := []
  game_over : Bool := false
  won : Bool := false
  death_message : Option String := Option.none
deriving Repr

/-- `GameState.from_game`: initial state from a game definition. -/
def GameState.from_game (game : Game) : GameState :=
  let objects := game.objects.map (fun obj =>
    let location := if game.initial_state.inventory.contains obj.id
      then "inventory" else obj.location
    (obj.id, { location := .str location
               is_open := .bool obj.is_open
               locked := .bool obj.locked
               is_lit := .bool obj.is_lit
               worn := .bool obj.worn
               hidden := .bool obj.hidden
               examined := .bool false : ObjectState }))
  let rooms := game.rooms.map (fun room => (room.id, { visited := false : RoomState }))
  let rooms := assocUpdate rooms game.initial_state.current_room
    (fun rs => { rs with visited := true })
  { current_room := game.initial_state.current_room
    inventory := game.initial_state.inventory
    turns := 0
    score := 0
    flags := game.initial_state.flags
    objects := objects
    rooms := rooms
    game_over := false
    won := false }

/-- `GameState.get_object_location`. -/
def GameState.get_object_location (st : GameState) (object_id : String) : Option PyValue :=
  (assocGet st.objects object_id).map ObjectState.location

/-- `GameState.get_visible_objects_at`: objects at a location, excluding
hidden ones and scenery. -/
def GameState.get_visible_objects_at (st : GameState) (location : String) (game : Game) :
    List String :=
  (st.objects.filter (fun p =>
    p.2.location == PyValue.str location && !p.2.hidden.truthy &&
    (match game.get_object p.1 with
     | some obj_def => !obj_def.scenery
     | Option.none => true))).map Prod.fst

/-- `GameState.move_object`: set an object's location (no-op if absent). -/
def GameState.move_object (st : GameState) (object_id new_location : String) : GameState :=
  { st with objects := (assocUpdate st.objects object_id
      (fun os => { os with location := .str new_location })) }

/-- `GameState.is_in_inventory`. -/
def GameState.is_in_inventory (st : GameState) (object_id : String) : Bool :=
  st.inventory.contains object_id

/-- `GameState.add_to_inventory`: append if absent, then relocate to
`"inventory"`. -/
def GameState.add_to_inventory (st : GameState) (object_id : String) : GameState :=
  let st := if st.inventory.contains object_id then st
            else { st with inventory := st.inventory ++ [object_id] }
  st.move_object object_id "inventory"

/-- `GameState.remove_from_inventory`: remove the first occurrence from the
inventory list; the object's location is NOT updated. -/
def GameState.remove_from_inventory (st : GameState) (object_id : String) : GameState :=
  if st.inventory.contains object_id then
    { st with inventory := st.inventory.erase object_id }
  else st

/-- `GameState.set_flag`. -/
def GameState.set_flag (st : GameState) (flag_name : String) (value : PyValue) : GameState :=
  { st with flags := assocSet st.flags flag_name value }

/-- `GameState.get_flag` (default `None`). -/
def GameState.get_flag (st : GameState) (flag_name : String) : PyValue :=
  (assocGet st.flags flag_name).getD .none

/-- `GameState.increment_turns`. -/
def GameState.increment_turns (st : GameState) : GameState :=
  { st with turns := st.turns + 1 }

/-- `GameState.end_game`. -/
def GameState.end_game (st : GameState) (won : Bool) (message : Option String := Option.none) :
    GameState :=
  let st := { st with game_over := true, won := won }
  if !won then
    match message with
    | some m => { st with death_message := some m }
    | Option.none => st
  else st

/-! ## models/command.py — verbs, prepositions, parsed commands -/

/-- `Verb` (models/command.py).  Constructor names mirror the Python enum
member names. -/
inductive Verb where
  | GO | NORTH | SOUTH | EAST | WEST | UP | DOWN | IN | OUT
  | TAKE | DROP | PUT | GIVE
  | EXAMINE | READ
  | OPEN | CLOSE | LOCK | UNLOCK
  | USE
  | TALK | SHOW | SING | INSERT
  | INVENTORY
  | LOOK | QUIT | HELP | SAVE | LOAD | WAIT
  | CUSTOM
deriving Repr, DecidableEq

/-- `verb.name.lower()`: the lower-cased Python enum member name. -/
def Verb.pyName : Verb → String
  | .GO => "go" | .NORTH => "north" | .SOUTH => "south" | .EAST => "east"
  | .WEST => "west" | .UP => "up" | .DOWN => "down" | .IN => "in" | .OUT => "out"
  | .TAKE => "take" | .DROP => "drop" | .PUT => "put" | .GIVE => "give"
  | .EXAMINE => "examine" | .READ => "read"
  | .OPEN => "open" | .CLOSE => "close" | .LOCK => "lock" | .UNLOCK => "unlock"
  | .USE => "use"
  | .TALK => "talk" | .SHOW => "show" | .SING => "sing" | .INSERT => "insert"
  | .INVENTORY => "inventory"
  | .LOOK => "look" | .QUIT => "quit" | .HELP => "help" | .SAVE => "save"
  | .LOAD => "load" | .WAIT => "wait"
  | .CUSTOM => "custom"

/-- `Preposition` (models/command.py). -/
inductive Preposition where
  | IN | ON | WITH | TO | FROM | AT | UNDER
deriving Repr, DecidableEq

/-- `Command` (models/command.py): a fully parsed player command. -/
structure Command where
  verb : Verb
  direct_object : Option String := Option.none
  preposition : Option Preposition := Option.none
  indirect_object : Option String := Option.none
  raw_input : String := ""
  custom_verb : Option String := Option.none
deriving Repr, DecidableEq

/-- `VERB_ALIASES` (models/command.py). -/
def VERB_ALIASES : List (String × Verb) :=
  [("go", .GO), ("walk", .GO), ("move", .GO),
   ("n", .NORTH), ("north", .NORTH), ("s", .SOUTH), ("south", .SOUTH),
   ("e", .EAST), ("east", .EAST), ("w", .WEST), ("west", .WEST),
   ("u", .UP), ("up", .UP), ("d", .DOWN), ("down", .DOWN),
   ("in", .IN), ("enter", .IN), ("out", .OUT), ("exit", .OUT), ("leave", .OUT),
   ("take", .TAKE), ("get", .TAKE), ("grab", .TAKE), ("pick", .TAKE),
   ("drop", .DROP), ("put", .PUT), ("place", .PUT), ("give", .GIVE),
   ("examine", .EXAMINE), ("x", .EXAMINE), ("look", .LOOK), ("l", .LOOK),
   ("inspect", .EXAMINE), ("read", .READ),
   ("open", .OPEN), ("close", .CLOSE), ("shut", .CLOSE),
   ("lock", .LOCK), ("unlock", .UNLOCK),
   ("use", .USE),
   ("talk", .TALK), ("speak", .TALK), ("say", .TALK),
   ("show", .SHOW), ("present", .SHOW), ("display", .SHOW),
   ("sing", .SING), ("insert", .INSERT),
   ("inventory", .INVENTORY), ("i", .INVENTORY), ("inv", .INVENTORY),
   ("quit", .QUIT), ("q", .QUIT), ("help", .HELP), ("?", .HELP),
   ("save", .SAVE), ("load", .LOAD), ("restore", .LOAD),
   ("wait", .WAIT), ("z", .WAIT)]

/-- `PREPOSITION_WORDS` (models/command.py). -/
def PREPOSITION_WORDS : List (String × Preposition) :=
  [("in", .IN), ("into", .IN), ("inside", .IN),
   ("on", .ON), ("onto", .ON), ("upon", .ON),
   ("with", .WITH), ("using", .WITH),
   ("to", .TO), ("from", .FROM), ("at", .AT),
   ("under", .UNDER), ("beneath", .UNDER), ("below", .UNDER)]

/-- `DIRECTION_VERBS` (models/command.py). -/
def DIRECTION_VERBS : List Verb :=
  [.NORTH, .SOUTH, .EAST, .WEST, .UP, .DOWN, .IN, .OUT]

/-- `VERBS_REQUIRING_OBJECT` (models/command.py). -/
def VERBS_REQUIRING_OBJECT : List Verb :=
  [.TAKE, .DROP, .PUT, .GIVE, .EXAMINE, .READ, .OPEN, .CLOSE,
   .LOCK, .UNLOCK, .USE, .TALK, .SHOW, .INSERT]

/-- `VERBS_WITH_INDIRECT` (models/command.py). -/
def VERBS_WITH_INDIRECT : List Verb :=
  [.PUT, .GIVE, .UNLOCK, .LOCK, .USE, .SHOW, .INSERT]

/-! ## parser/lexer.py -/

/-- `TokenType` (parser/lexer.py). -/
inductive TokenType where
  | WORD | COMMA | AND | PERIOD
deriving Repr, DecidableEq

/-- `Token` (parser/lexer.py). -/
structure Token where
  ty : TokenType
  value : String
  original : String
deriving Repr, DecidableEq

/-- `CONTRACTIONS` (parser/lexer.py); keys written with `sq` to spell the
apostrophe. -/
def CONTRACTIONS : List (String × String) :=
  [("don" ++ sq.toString ++ "t", "do not"),
   ("doesn" ++ sq.toString ++ "t", "does not"),
   ("can" ++ sq.toString ++ "t", "cannot"),
   ("won" ++ sq.toString ++ "t", "will not"),
   ("i" ++ sq.toString ++ "m", "i am"),
   ("it" ++ sq.toString ++ "s", "it is"),
   ("that" ++ sq.toString ++ "s", "that is"),
   ("what" ++ sq.toString ++ "s", "what is"),
   ("where" ++ sq.toString ++ "s", "where is")]

/-- Expand each contraction in table order by literal substring
replacement. -/
def applyContractions (text : String) : String :=
  CONTRACTIONS.foldl (fun t p => pyReplace t p.1 p.2) text

/-- The effect of `re.split(r"(\s+|[,.])", text)` followed by the
per-part `strip()` and empty-part skip in `tokenize`: maximal runs of
characters that are neither whitespace nor `,`/`.`, plus each `,` and `.`
as its own part, in order. -/
def splitParts (s : String) : List String :=
  go s.data []
where
  flush (cur : List Char) (rest : List String) : List String :=
    if cur.isEmpty then rest else String.mk cur.reverse :: rest
  go : List Char → List Char → List String
    | [], cur => flush cur []
    | c :: cs, cur =>
        if c.isWhitespace then flush cur (go cs [])
        else if c = ',' || c = '.' then flush cur (String.mk [c] :: go cs [])
        else go cs (c :: cur)

/-- `tokenize` (parser/lexer.py). -/
def tokenize (text : String) : List Token :=
  let text := pyTrim (pyToLower text)
  if text = "" then []
  else
    let text := applyContractions text
    (splitParts text).filterMap (fun part =>
      -- parts are non-empty and whitespace-free by construction of
      -- `splitParts`, so the source's re-strip and empty skip are no-ops
      if part = "," then some ⟨.COMMA, ",", part⟩
      else if part = "." then Option.none
      else if part = "and" || part = "&" then some ⟨.AND, "and", part⟩
      else if part = "a" || part = "an" || part = "the" then Option.none
      else some ⟨.WORD, part, part⟩)

/-- `tokens_to_words` (parser/lexer.py). -/
def tokens_to_words (tokens : List Token) : List String :=
  (tokens.filter (fun t => t.ty == .WORD)).map Token.value

/-- `split_on_conjunction` (parser/lexer.py). -/
def split_on_conjunction (tokens : List Token) : List (List Token) :=
  if tokens.isEmpty then []
  else
    let segments := tokens.foldl
      (fun (segs : List (List Token)) t =>
        if t.ty == .AND || t.ty == .COMMA then
          match segs with
          | last :: _ => if !last.isEmpty then [] :: segs else segs
          | [] => segs
        else
          match segs with
          | last :: rest => (t :: last) :: rest
          | [] => [[t]])
      [[]]
    ((segments.map List.reverse).reverse).filter (fun s => !s.isEmpty)

/-! ## parser/parser.py — the grammar parser -/

/-- `ParseError` (parser/parser.py). -/
structure ParseError where
  message : String
  raw_input : String
deriving Repr, DecidableEq

/-- `ParseResult` (parser/parser.py): `success` iff `command` is set. -/
structure ParseResult where
  command : Option Command
  error : Option ParseError
deriving Repr, DecidableEq

def ParseResult.success (r : ParseResult) : Bool :=
  r.command.isSome

def ParseResult.ok (command : Command) : ParseResult :=
  ⟨some command, Option.none⟩

def ParseResult.fail (message raw_input : String) : ParseResult :=
  ⟨Option.none, some ⟨message, raw_input⟩⟩

/-- `MULTI_WORD_VERBS` (parser/parser.py). -/
def MULTI_WORD_VERBS : List ((String × String) × Verb) :=
  [(("pick", "up"), .TAKE), (("put", "down"), .DROP),
   (("look", "at"), .EXAMINE), (("look", "in"), .EXAMINE),
   (("look", "under"), .EXAMINE),
   (("turn", "on"), .USE), (("turn", "off"), .USE),
   (("switch", "on"), .USE), (("switch", "off"), .USE)]

/-- Lookup in `MULTI_WORD_VERBS` by the first two words. -/
def mwLookup (w1 w2 : String) : Option Verb :=
  (MULTI_WORD_VERBS.find? (fun p => p.1.1 == w1 && p.1.2 == w2)).map Prod.snd

/-- `DIRECTION_WORDS` (parser/parser.py). -/
def DIRECTION_WORDS : List (String × Verb) :=
  [("north", .NORTH), ("n", .NORTH), ("south", .SOUTH), ("s", .SOUTH),
   ("east", .EAST), ("e", .EAST), ("west", .WEST), ("w", .WEST),
   ("up", .UP), ("u", .UP), ("down", .DOWN), ("d", .DOWN),
   ("in", .IN), ("enter", .IN), ("inside", .IN),
   ("out", .OUT), ("outside", .OUT), ("exit", .OUT)]

/-- The first dictionary key mapping to a given preposition
(`[k for k, v in PREPOSITION_WORDS.items() if v == prep][0]`). -/
def firstPrepWord (p : Preposition) : String :=
  (((PREPOSITION_WORDS.filter (fun kv => kv.2 == p)).map Prod.fst).headD "")

/-- The left-to-right scan of `remaining` for the first word accepted as a
preposition (`for i, word in enumerate(remaining): ... break`), returning
the words before it, the preposition, and the words after it. -/
def findPrepSplit (isPrep : String → Option Preposition) :
    List String → Option (List String × Preposition × List String)
  | [] => Option.none
  | w :: ws =>
      match isPrep w with
      | some p => some ([], p, ws)
      | Option.none =>
          (findPrepSplit isPrep ws).map (fun r => (w :: r.1, r.2.1, r.2.2))

/-- The body of `parse` (parser/parser.py) from the point where the word
list has been computed (`words = tokens_to_words(tokens)` onwards). -/
def parseFromWords : List String → String → ParseResult
  | [], raw_input => ParseResult.fail "I don't understand that." raw_input
  | first_word :: remaining, raw_input =>
        -- select the verb: multi-word phrase, then alias, then bare direction
        let selected : Option (Verb × List String) :=
          match remaining with
          | r0 :: rest =>
              match mwLookup first_word r0 with
              | some v => some (v, rest)
              | Option.none =>
                  match assocGet VERB_ALIASES first_word with
                  | some v => some (v, remaining)
                  | Option.none => Option.none
          | [] =>
              match assocGet VERB_ALIASES first_word with
              | some v => some (v, remaining)
              | Option.none => Option.none
        match selected with
        | Option.none =>
            match assocGet DIRECTION_WORDS first_word with
            | some direction_verb =>
                ParseResult.ok { verb := direction_verb, raw_input := raw_input }
            | Option.none =>
                ParseResult.fail
                  ("I don't know the word \"" ++ first_word ++ "\".") raw_input
        | some (verb, remaining) =>
          if verb = Verb.GO then
            match remaining with
            | [] => ParseResult.fail "Go where?" raw_input
            | direction :: _ =>
                match assocGet DIRECTION_WORDS direction with
                | some v => ParseResult.ok { verb := v, raw_input := raw_input }
                | Option.none =>
                    ParseResult.fail
                      ("I don't know how to go \"" ++ direction ++ "\".") raw_input
          else if verb = Verb.LOOK && remaining.isEmpty then
            ParseResult.ok { verb := Verb.LOOK, raw_input := raw_input }
          else if VERBS_REQUIRING_OBJECT.contains verb && remaining.isEmpty then
            ParseResult.fail (pyCapitalize verb.pyName ++ " what?") raw_input
          else if remaining.isEmpty then
            ParseResult.ok { verb := verb, raw_input := raw_input }
          else
            let prepSplit :=
              if VERBS_WITH_INDIRECT.contains verb then
                findPrepSplit (assocGet PREPOSITION_WORDS) remaining
              else Option.none
            match prepSplit with
            | some (direct_words, prep, indirect_words) =>
                if direct_words.isEmpty then
                  ParseResult.fail (pyCapitalize verb.pyName ++ " what?") raw_input
                else if indirect_words.isEmpty then
                  ParseResult.fail (pyCapitalize (firstPrepWord prep) ++ " what?") raw_input
                else
                  ParseResult.ok
                    { verb := verb, direct_object := some (joinSp direct_words),
                      preposition := some prep,
                      indirect_object := some (joinSp indirect_words),
                      raw_input := raw_input }
            | Option.none =>
                ParseResult.ok
                  { verb := verb, direct_object := some (joinSp remaining),
                    raw_input := raw_input }

/-- `parse` (parser/parser.py, module level). -/
def parse (text : String) : ParseResult :=
  let raw_input := pyTrim text
  if raw_input = "" then ParseResult.fail "I beg your pardon?" raw_input
  else
    let tokens := tokenize raw_input
    if tokens.isEmpty then ParseResult.fail "I beg your pardon?" raw_input
    else parseFromWords (tokens_to_words tokens) raw_input

/-! ## parser/game_parser.py — parser with custom-verb support -/

/-- `CustomVerbInfo` (parser/game_parser.py). -/
structure CustomVerbInfo where
  name : String
  requires_object : Bool
  requires_indirect : Bool
  prepositions : List String
deriving Repr, DecidableEq

/-- The custom-verb lookup tables built by `GameParser.__init__`. -/
structure GameParser where
  game : Game
  custom_verbs : List (String × CustomVerbInfo)
  custom_verb_aliases : List (String × String)

/-- `GameParser.__init__`: build the custom-verb tables from the game's
verb definitions, later definitions overwriting earlier ones in place. -/
def GameParser.init (game : Game) : GameParser :=
  let tables := game.verbs.foldl
    (fun (t : List (String × CustomVerbInfo) × List (String × String)) verb_def =>
      let info : CustomVerbInfo :=
        { name := pyToLower verb_def.verb
          requires_object := verb_def.requires_object
          requires_indirect := verb_def.requires_indirect
          prepositions := verb_def.prepositions }
      let cv := assocSet t.1 (pyToLower verb_def.verb) info
      let al := verb_def.aliases.foldl
        (fun (a : List (String × String)) alias_ =>
          assocSet a (pyToLower alias_) (pyToLower verb_def.verb)) t.2
      (cv, al))
    ([], [])
  { game := game, custom_verbs := tables.1, custom_verb_aliases := tables.2 }

/-- `GameParser._parse_with_verb`: parse the remaining words with a known
built-in verb. -/
def GameParser._parse_with_verb (verb : Verb) (custom_verb_name : Option String)
    (remaining : List String) (raw_input : String) : ParseResult :=
  if verb = Verb.GO then
    match remaining with
    | [] => ParseResult.fail "Go where?" raw_input
    | direction :: _ =>
        match assocGet DIRECTION_WORDS direction with
        | some v => ParseResult.ok { verb := v, raw_input := raw_input }
        | Option.none =>
            ParseResult.fail
              ("I don't know how to go \"" ++ direction ++ "\".") raw_input
  else if verb = Verb.LOOK && remaining.isEmpty then
    ParseResult.ok { verb := Verb.LOOK, raw_input := raw_input }
  else if VERBS_REQUIRING_OBJECT.contains verb && remaining.isEmpty then
    ParseResult.fail (pyCapitalize verb.pyName ++ " what?") raw_input
  else if remaining.isEmpty then
    ParseResult.ok { verb := verb, custom_verb := custom_verb_name, raw_input := raw_input }
  else
    let prepSplit :=
      if VERBS_WITH_INDIRECT.contains verb then
        findPrepSplit (assocGet PREPOSITION_WORDS) remaining
      else Option.none
    match prepSplit with
    | some (direct_words, prep, indirect_words) =>
        if direct_words.isEmpty then
          ParseResult.fail (pyCapitalize verb.pyName ++ " what?") raw_input
        else if indirect_words.isEmpty then
          ParseResult.fail (pyCapitalize (firstPrepWord prep) ++ " what?") raw_input
        else
          ParseResult.ok
            { verb := verb, direct_object := some (joinSp direct_words),
              preposition := some prep, indirect_object := some (joinSp indirect_words),
              custom_verb := custom_verb_name, raw_input := raw_input }
    | Option.none =>
        ParseResult.ok
          { verb := verb, direct_object := some (joinSp remaining),
            custom_verb := custom_verb_name, raw_input := raw_input }

/-- `GameParser._parse_custom_verb`. -/
def GameParser._parse_custom_verb (p : GameParser) (verb_name : String)
    (remaining : List String) (raw_input : String) : ParseResult :=
  match assocGet p.custom_verbs verb_name with
  | Option.none => ParseResult.fail "I don't understand." raw_input
    -- unreachable: callers pass a key present in the table
  | some info =>
    if info.requires_object && remaining.isEmpty then
      ParseResult.fail (pyCapitalize verb_name ++ " what?") raw_input
    else if remaining.isEmpty then
      ParseResult.ok
        { verb := Verb.CUSTOM, custom_verb := some verb_name, raw_input := raw_input }
    else
      let prepSplit :=
        if info.requires_indirect || !info.prepositions.isEmpty then
          let valid_preps :=
            if !info.prepositions.isEmpty then info.prepositions
            else PREPOSITION_WORDS.map Prod.fst
          findPrepSplit
            (fun w => if valid_preps.contains w then assocGet PREPOSITION_WORDS w
                      else Option.none)
            remaining
        else Option.none
      match prepSplit with
      | some (direct_words, prep, indirect_words) =>
          if direct_words.isEmpty && info.requires_object then
            ParseResult.fail (pyCapitalize verb_name ++ " what?") raw_input
          else if indirect_words.isEmpty then
            ParseResult.fail (pyCapitalize (firstPrepWord prep) ++ " what?") raw_input
          else
            ParseResult.ok
              { verb := Verb.CUSTOM,
                direct_object :=
                  if direct_words.isEmpty then Option.none
                  else some (joinSp direct_words),
                preposition := some prep,
                indirect_object := some (joinSp indirect_words),
                custom_verb := some verb_name, raw_input := raw_input }
      | Option.none =>
          ParseResult.ok
            { verb := Verb.CUSTOM,
              direct_object :=
                if remaining.isEmpty then Option.none else some (joinSp remaining),
              custom_verb := some verb_name, raw_input := raw_input }

/-- `GameParser.parse`. -/
def GameParser.parse (p : GameParser) (text : String) : ParseResult :=
  let raw_input := pyTrim text
  if raw_input = "" then ParseResult.fail "I beg your pardon?" raw_input
  else
    let tokens := tokenize raw_input
    if tokens.isEmpty then ParseResult.fail "I beg your pardon?" raw_input
    else
      let words := tokens_to_words tokens
      match words with
      | [] => ParseResult.fail "I don't understand that." raw_input
      | first_word :: remaining =>
        let multi : Option (Verb × List String) :=
          match remaining with
          | r0 :: rest =>
              match mwLookup first_word r0 with
              | some v => some (v, rest)
              | Option.none => Option.none
          | [] => Option.none
        match multi with
        | some (verb, rest) =>
            GameParser._parse_with_verb verb Option.none rest raw_input
        | Option.none =>
          match assocGet VERB_ALIASES first_word with
          | some verb => GameParser._parse_with_verb verb Option.none remaining raw_input
          | Option.none =>
            match assocGet DIRECTION_WORDS first_word with
            | some direction_verb =>
                ParseResult.ok { verb := direction_verb, raw_input := raw_input }
            | Option.none =>
              if (assocGet p.custom_verbs first_word).isSome then
                p._parse_custom_verb first_word remaining raw_input
              else
                match assocGet p.custom_verb_aliases first_word with
                | some canonical => p._parse_custom_verb canonical remaining raw_input
                | Option.none =>
                    ParseResult.fail
                      ("I don't know the word \"" ++ first_word ++ "\".") raw_input

/-! ## parser/resolver.py — reference resolution -/

/-- `ResolutionError` (parser/resolver.py). -/
inductive ResolutionError where
  | NOT_FOUND | AMBIGUOUS | NOT_HERE
deriving Repr, DecidableEq

/-- `ResolvedCommand` (parser/resolver.py). -/
structure ResolvedCommand where
  verb : Verb
  direct_object_id : Option String := Option.none
  preposition : Option Preposition := Option.none
  indirect_object_id : Option String := Option.none
  raw_input : String := ""
  custom_verb : Option String := Option.none
deriving Repr, DecidableEq

/-- `ResolutionResult` (parser/resolver.py). -/
structure ResolutionResult where
  resolved : Option ResolvedCommand
  error_type : Option ResolutionError
  error_message : Option String
  ambiguous_objects : Option (List String) := Option.none
deriving Repr

def ResolutionResult.success (r : ResolutionResult) : Bool :=
  r.resolved.isSome

def ResolutionResult.okRes (resolved : ResolvedCommand) : ResolutionResult :=
  ⟨some resolved, Option.none, Option.none, Option.none⟩

def ResolutionResult.not_found (object_ref : String) : ResolutionResult :=
  ⟨Option.none, some .NOT_FOUND,
   some ("You can't see any " ++ object_ref ++ " here."), Option.none⟩

def ResolutionResult.ambiguous (object_ref : String) (ms : List GameObject) :
    ResolutionResult :=
  ⟨Option.none, some .AMBIGUOUS,
   some ("Which " ++ object_ref ++ " do you mean?"),
   some (ms.map GameObject.name)⟩

/-- `ObjectResolver.get_visible_objects`: all objects the player can
currently interact with (room, inventory, or inside an open container that
is itself in the room or inventory), excluding hidden ones. -/
def get_visible_objects (game : Game) (st : GameState) : List GameObject :=
  game.objects.filter (fun obj =>
    match assocGet st.objects obj.id with
    | Option.none => false
    | some obj_state =>
      if obj_state.hidden.truthy then false
      else if obj_state.location == PyValue.str st.current_room then true
      else if obj_state.location == PyValue.str "inventory" then true
      else
        match game.get_objectV obj_state.location with
        | Option.none => false
        | some _ =>
          match assocGetV st.objects obj_state.location with
          | some container_state =>
              container_state.is_open.truthy &&
              (container_state.location == PyValue.str st.current_room ||
               container_state.location == PyValue.str "inventory")
          | Option.none => false)

/-- The inner `score_match` of `ObjectResolver.match_object`: the best
score over every split of the reference words into a leading adjective
slice and a trailing non-empty noun slice; `-1` when no split matches. -/
def scoreFrom (name_lower : String) (obj_adjectives : List String) :
    List String → List String → Int
  | _, [] => -1
  | pre, w :: ws =>
      let here :=
        let potential_noun := joinSp (w :: ws)
        if potential_noun = "" then (-1 : Int)
        else if name_lower = potential_noun then
          if pre.all (fun adj => obj_adjectives.contains adj) then (pre.length : Int)
          else -1
        else -1
      max here (scoreFrom name_lower obj_adjectives (pre ++ [w]) ws)

/-- `score_match` (inside `ObjectResolver.match_object`). -/
def score_match (obj : GameObject) (ref_words : List String) : Int :=
  scoreFrom (pyToLower obj.name) (obj.adjectives.map pyToLower) [] ref_words

/-- `ObjectResolver.match_object`: priority-ordered matching of a text
reference against a list of candidate objects. -/
def match_object (reference : String) (objects : List GameObject) : List GameObject :=
  let reference := pyTrim (pyToLower reference)
  let words := pySplit reference
  if words.isEmpty then []
  else
    match objects.find? (fun obj => obj.id == pyReplace reference " " "_") with
    | some obj => [obj]
    | Option.none =>
      let exact_matches := objects.filter (fun obj => pyToLower obj.name == reference)
      if !exact_matches.isEmpty then exact_matches
      else
        let scored := (objects.map (fun obj => (obj, score_match obj words))).filter
          (fun p => p.2 ≥ 0)
        if scored.isEmpty then
          if words.length = 1 then
            let w := words.headD ""
            objects.filter (fun obj =>
              pyContains (pyToLower obj.name) w || pyContains w (pyToLower obj.name))
          else []
        else
          let best_score := (scored.map Prod.snd).foldl max (-1)
          (scored.filter (fun p => p.2 == best_score)).map Prod.fst

/-- `ObjectResolver.resolve`: resolve a parsed command's object phrases to
object ids against the current visibility set. -/
def resolve (game : Game) (st : GameState) (command : Command) : ResolutionResult :=
  let visible := get_visible_objects game st
  -- resolve one phrase: `inl` carries the resolved id (or none when the
  -- phrase is absent/empty), `inr` a fail-fast resolution error
  let resolvePhrase : Option String → Option String ⊕ ResolutionResult := fun phrase? =>
    match phrase? with
    | some phrase =>
        if optTruthy (some phrase) then
          let ms := match_object phrase visible
          match ms with
          | [] => Sum.inr (ResolutionResult.not_found phrase)
          | [m] => Sum.inl (some m.id)
          | _ => Sum.inr (ResolutionResult.ambiguous phrase ms)
        else Sum.inl Option.none
    | Option.none => Sum.inl Option.none
  match resolvePhrase command.direct_object with
  | Sum.inr err => err
  | Sum.inl direct_id =>
    match resolvePhrase command.indirect_object with
    | Sum.inr err => err
    | Sum.inl indirect_id =>
        ResolutionResult.okRes
          { verb := command.verb, direct_object_id := direct_id,
            preposition := command.preposition,
            indirect_object_id := indirect_id,
            raw_input := command.raw_input, custom_verb := command.custom_verb }

/-! ## engine/actions.py — the condition/effect evaluator and verb handlers -/

/-- `ActionResult` (engine/actions.py). -/
structure ActionResult where
  message : String
  success : Bool := true
deriving Repr, DecidableEq

/-- The capture of `re.match(r"inventory\.includes\(['\x7b+\x7d]...)` on a
condition that starts with `inventory.includes(`: a quote (single or
double), one or more non-quote characters, a closing quote and `)`;
anything may follow. -/
def matchIncludes (cond : String) : Option String :=
  if pyStartsWith cond "inventory.includes(" then
    matchSuffix ((cond.drop 19).data)
  else Option.none
where
  matchSuffix : List Char → Option String
    | q :: rest =>
        if q = sq || q = '"' then
          let body := rest.takeWhile (fun c => !(c = sq || c = '"'))
          match rest.drop body.length with
          | _ :: ')' :: _ => if !body.isEmpty then some (String.mk body) else Option.none
          | _ => Option.none
        else Option.none
    | [] => Option.none

/-- `re.search` with the same pattern: the capture at the leftmost
matching position, scanning left to right. -/
def searchIncludes (s : String) : Option String :=
  go s.data
where
  go : List Char → Option String
    | [] => Option.none
    | c :: cs =>
        match matchIncludes (String.mk (c :: cs)) with
        | some r => some r
        | Option.none => go cs

/-- `key.split(".", 1)`: split at the first occurrence of `sep` only
(callers guarantee `sep` occurs in `s`). -/
def splitOnce (s sep : String) : String × String :=
  match pySplitOnStr s sep with
  | [] => (s, "")
  | [x] => (x, "")
  | x :: rest => (x, String.intercalate sep rest)

/-- `_evaluate_condition` (engine/actions.py), by fuel recursion.  Every
recursive call is on a strictly shorter string (conjunct/disjunct parts
drop a 4-character separator, negation drops the `!`), so a fuel of
`condition.length + 1` never runs out; the fuel-0 branch is unreachable. -/
def evalConditionFuel (st : GameState) : Nat → String → Bool
  | 0, _ => false
  | fuel + 1, condition =>
    let condition := pyTrim condition
    if pyContains condition " && " then
      (pySplitOnStr condition " && ").all
        (fun part => evalConditionFuel st fuel (pyTrim part))
    else if pyContains condition " || " then
      (pySplitOnStr condition " || ").any
        (fun part => evalConditionFuel st fuel (pyTrim part))
    else if pyStartsWith condition "!" then
      !evalConditionFuel st fuel (pyTrim (condition.drop 1))
    else if pyStartsWith condition "inventory.includes(" then
      match matchIncludes condition with
      | some item_id => st.is_in_inventory item_id
      | Option.none => false
    else if pyStartsWith condition "flags." then
      (st.get_flag (condition.drop 6)).truthy
    else if pyContains condition "." then
      let (obj_id, attr) := splitOnce condition "."
      match assocGet st.objects obj_id with
      | some obj_state =>
          if objectStateHasAttr attr then (obj_state.getAttr attr).truthy else false
      | Option.none => false
    else
      (st.get_flag condition).truthy

/-- `_evaluate_condition` (engine/actions.py). -/
def _evaluate_condition (condition : String) (st : GameState) : Bool :=
  evalConditionFuel st (condition.length + 1) condition

/-- The `state_changes` application loop, written verbatim in both
`_apply_action_effects` and `_execute_custom_action`. -/
def applyStateChanges : List (String × PyValue) → GameState → GameState
  | [], st => st
  | (key, value) :: rest, st =>
      let st :=
        if pyContains key "." then
          let (obj_id, attr) := splitOnce key "."
          if obj_id = "flags" then st.set_flag attr value
          else if (assocGet st.objects obj_id).isSome && objectStateHasAttr attr then
            { st with objects :=
                (assocUpdate st.objects obj_id (fun os => os.setAttr attr value)) }
          else st
        else st.set_flag key value
      applyStateChanges rest st

/-- The `reveals_object` step shared by both action executors. -/
def applyReveal (reveals : Option String) (st : GameState) : GameState :=
  match reveals with
  | some revealed_id =>
      if optTruthy (some revealed_id) then
        { st with objects :=
            (assocUpdate st.objects revealed_id
              (fun os => { os with hidden := .bool false })) }
      else st
  | Option.none => st

/-- The `moves_player` step shared by both action executors. -/
def applyMovesPlayer (moves : Option String) (st : GameState) : GameState :=
  match moves with
  | some room_id =>
      if optTruthy (some room_id) then { st with current_room := room_id } else st
  | Option.none => st

/-- `_apply_action_effects` (engine/actions.py): apply an action's effects.
NOTE the `consumes_object` branch of the source is a stub
(`pass  # TODO: implement if needed`): consumption is a no-op here. -/
def _apply_action_effects (action : ObjectAction) (st : GameState) :
    ActionResult × GameState :=
  let st := applyStateChanges action.state_changes st
  let st := applyReveal action.reveals_object st
  -- if action.consumes_object: pass  (TODO stub in the source)
  let st := applyMovesPlayer action.moves_player st
  ({ message := action.message }, st)

/-- `_generate_condition_hint` (engine/actions.py). -/
def _generate_condition_hint (condition : String) (_item target : GameObject)
    (st : GameState) : String :=
  let compoundHint : Option String :=
    if pyContains condition "&&" || pyContains condition "||" then
      let failed_parts :=
        if pyContains condition " && " then
          ((pySplitOnStr condition " && ").map pyTrim).filter
            (fun p => !_evaluate_condition p st)
        else [condition]
      let hints := failed_parts.map (fun part =>
        if pyContains part "talked_to" || pyContains part "talk" then
          "talk to the " ++ target.name
        else if pyContains part "inventory.includes" then
          match searchIncludes part with
          | some required_item => "have the " ++ pyReplace required_item "_" " "
          | Option.none => "have the right item"
        else "do something else")
      if !hints.isEmpty then
        some ("You might need to " ++ String.intercalate " and " hints ++ " first.")
      else Option.none
    else Option.none
  match compoundHint with
  | some h => h
  | Option.none =>
    if (pyContains condition "talked_to" || pyContains condition "talk") &&
        !_evaluate_condition condition st then
      "Maybe you should try talking to the " ++ target.name ++ " first."
    else
      let invHint : Option String :=
        if pyContains condition "inventory.includes" then
          match searchIncludes condition with
          | some required_item =>
              if !st.is_in_inventory required_item then
                some ("You need the " ++ pyReplace required_item "_" " " ++ " first.")
              else Option.none
          | Option.none => Option.none
        else Option.none
      match invHint with
      | some h => h
      | Option.none =>
          "The " ++ target.name ++ " doesn't respond. Maybe you're missing something."

/-- `_get_custom_action` (engine/actions.py): the custom action's message
if it exists and its condition holds, its `fail_message` when the
condition fails, `None` when no custom action is registered. -/
def _get_custom_action (obj : GameObject) (action_key : String) (st : GameState) :
    Option String :=
  match assocGet obj.actions action_key with
  | Option.none => Option.none
  | some (.str s) => some s
  | some (.act action) =>
      if optTruthy action.condition && !_evaluate_condition (action.condition.getD "") st then
        action.fail_message
      else some action.message

/-- `_execute_custom_action` (engine/actions.py): execute a custom action,
including state changes.  This variant DOES implement `consumes_object`
(remove from inventory and relocate to `"nowhere"`). -/
def _execute_custom_action (obj : GameObject) (action_key : String) (_game : Game)
    (st : GameState) : Option ActionResult × GameState :=
  match assocGet obj.actions action_key with
  | Option.none => (Option.none, st)
  | some (.str s) => (some { message := s }, st)
  | some (.act action) =>
      if optTruthy action.condition && !_evaluate_condition (action.condition.getD "") st then
        (some { message := pyOr action.fail_message "Nothing happens.", success := false }, st)
      else
        let st := applyStateChanges action.state_changes st
        let st := applyReveal action.reveals_object st
        let st :=
          if action.consumes_object then
            (st.remove_from_inventory obj.id).move_object obj.id "nowhere"
          else st
        let st := applyMovesPlayer action.moves_player st
        (some { message := action.message }, st)

/-- `_execute_custom_action_with_hint` (engine/actions.py): try
`action_key` then `fallback_action_key` on the target; on a condition
failure without `fail_message`, synthesize a hint. -/
def _execute_custom_action_with_hint (item target : GameObject)
    (action_key fallback_action_key : String) (_game : Game) (st : GameState) :
    Option ActionResult × GameState :=
  tryKeys [action_key, fallback_action_key]
where
  tryKeys : List String → Option ActionResult × GameState
    | [] => (Option.none, st)
    | key :: rest =>
        match assocGet target.actions key with
        | Option.none => tryKeys rest
        | some (.str s) => (some { message := s }, st)
        | some (.act action) =>
            if optTruthy action.condition then
              if _evaluate_condition (action.condition.getD "") st then
                let (r, st') := _apply_action_effects action st
                (some r, st')
              else if optTruthy action.fail_message then
                (some { message := action.fail_message.getD "", success := false }, st)
              else
                (some { message :=
                          _generate_condition_hint (action.condition.getD "")
                            item target st,
                        success := false }, st)
            else
              let (r, st') := _apply_action_effects action st
              (some r, st')

/-- `_get_container_contents` (engine/actions.py). -/
def _get_container_contents (container_id : String) (game : Game) (st : GameState) :
    String :=
  let items := st.objects.filterMap (fun p =>
    if p.2.location == PyValue.str container_id && !p.2.hidden.truthy then
      (game.get_object p.1).map GameObject.name
    else Option.none)
  if !items.isEmpty then String.intercalate ", " items else ""

/-- `handle_take` (engine/actions.py). -/
def handle_take (command : ResolvedCommand) (game : Game) (st : GameState) :
    ActionResult × GameState :=
  if !optTruthy command.direct_object_id then
    ({ message := "Take what?", success := false }, st)
  else
    let oid := command.direct_object_id.getD ""
    match game.get_object oid with
    | Option.none => ({ message := "You can't see that here.", success := false }, st)
    | some obj =>
      match assocGet st.objects oid with
      | Option.none => ({ message := "You can't see that here.", success := false }, st)
      | some obj_state =>
        if obj_state.location == PyValue.str "inventory" then
          ({ message := "You already have that.", success := false }, st)
        else if !obj.takeable then
          ({ message := "You can't take the " ++ obj.name ++ ".", success := false }, st)
        else
          let closedContainer :=
            match game.get_objectV obj_state.location with
            | some container =>
                if container.container then
                  match assocGetV st.objects obj_state.location with
                  | some container_state => !container_state.is_open.truthy
                  | Option.none => false
                else false
            | Option.none => false
          if closedContainer then
            let container_name :=
              ((game.get_objectV obj_state.location).map GameObject.name).getD ""
            ({ message := "The " ++ container_name ++ " is closed.", success := false }, st)
          else
            ({ message := "Taken." }, st.add_to_inventory oid)

/-- `handle_drop` (engine/actions.py). -/
def handle_drop (command : ResolvedCommand) (game : Game) (st : GameState) :
    ActionResult × GameState :=
  if !optTruthy command.direct_object_id then
    ({ message := "Drop what?", success := false }, st)
  else
    let oid := command.direct_object_id.getD ""
    match game.get_object oid with
    | Option.none => ({ message := "You can't see that here.", success := false }, st)
    | some obj =>
      if !st.is_in_inventory oid then
        ({ message := "You're not carrying that.", success := false }, st)
      else if !obj.droppable then
        ({ message := "You can't drop the " ++ obj.name ++ ".", success := false }, st)
      else
        let st := st.remove_from_inventory oid
        let st := st.move_object oid st.current_room
        ({ message := "Dropped." }, st)

/-- `handle_examine` (engine/actions.py). -/
def handle_examine (command : ResolvedCommand) (game : Game) (st : GameState) :
    ActionResult × GameState :=
  if !optTruthy command.direct_object_id then
    ({ message := "Examine what?", success := false }, st)
  else
    let oid := command.direct_object_id.getD ""
    match game.get_object oid with
    | Option.none => ({ message := "You can't see that here.", success := false }, st)
    | some obj =>
      let obj_state? := assocGet st.objects oid
      let st := { st with objects :=
        (assocUpdate st.objects oid (fun os => { os with examined := .bool true })) }
      match _get_custom_action obj "examine" st with
      | some custom_msg =>
          if custom_msg ≠ "" then ({ message := custom_msg }, st)
          else examineText obj obj_state? oid game st
      | Option.none => examineText obj obj_state? oid game st
where
  examineText (obj : GameObject) (obj_state? : Option ObjectState) (oid : String)
      (game : Game) (st : GameState) : ActionResult × GameState :=
    let text := pyOr obj.examine_text obj.description
    let text :=
      if obj.container then
        match obj_state? with
        | some obj_state =>
            if obj_state.is_open.truthy then
              let contents := _get_container_contents oid game st
              if contents ≠ "" then
                text ++ "\n\nInside the " ++ obj.name ++ " you see: " ++ contents
              else text ++ "\n\nThe " ++ obj.name ++ " is empty."
            else text
        | Option.none => text
      else text
    ({ message := text }, st)

/-- `handle_read` (engine/actions.py). -/
def handle_read (command : ResolvedCommand) (game : Game) (st : GameState) :
    ActionResult × GameState :=
  if !optTruthy command.direct_object_id then
    ({ message := "Read what?", success := false }, st)
  else
    let oid := command.direct_object_id.getD ""
    match game.get_object oid with
    | Option.none => ({ message := "You can't see that here.", success := false }, st)
    | some obj =>
      if !obj.readable then
        ({ message := "There's nothing to read on the " ++ obj.name ++ ".",
           success := false }, st)
      else
        ({ message := pyOr obj.read_text "It's blank." }, st)

/-- `handle_open` (engine/actions.py). -/
def handle_open (command : ResolvedCommand) (game : Game) (st : GameState) :
    ActionResult × GameState :=
  if !optTruthy command.direct_object_id then
    ({ message := "Open what?", success := false }, st)
  else
    let oid := command.direct_object_id.getD ""
    match game.get_object oid with
    | Option.none => ({ message := "You can't see that here.", success := false }, st)
    | some obj =>
      match assocGet st.objects oid with
      | Option.none => ({ message := "You can't see that here.", success := false }, st)
      | some obj_state =>
        if !obj.openable then
          ({ message := "You can't open the " ++ obj.name ++ ".", success := false }, st)
        else if obj_state.is_open.truthy then
          ({ message := "It's already open.", success := false }, st)
        else if obj_state.locked.truthy then
          ({ message := "It's locked.", success := false }, st)
        else
          let st := { st with objects :=
            (assocUpdate st.objects oid (fun os => { os with is_open := .bool true })) }
          if obj.container then
            let contents := _get_container_contents oid game st
            if contents ≠ "" then
              ({ message := "Opened. Inside you see: " ++ contents }, st)
            else ({ message := "Opened." }, st)
          else ({ message := "Opened." }, st)

/-- `handle_close` (engine/actions.py). -/
def handle_close (command : ResolvedCommand) (game : Game) (st : GameState) :
    ActionResult × GameState :=
  if !optTruthy command.direct_object_id then
    ({ message := "Close what?", success := false }, st)
  else
    let oid := command.direct_object_id.getD ""
    match game.get_object oid with
    | Option.none => ({ message := "You can't see that here.", success := false }, st)
    | some obj =>
      match assocGet st.objects oid with
      | Option.none => ({ message := "You can't see that here.", success := false }, st)
      | some obj_state =>
        if !obj.openable then
          ({ message := "You can't close the " ++ obj.name ++ ".", success := false }, st)
        else if !obj_state.is_open.truthy then
          ({ message := "It's already closed.", success := false }, st)
        else
          let st := { st with objects :=
            (assocUpdate st.objects oid (fun os => { os with is_open := .bool false })) }
          ({ message := "Closed." }, st)

/-- `handle_put` (engine/actions.py). -/
def handle_put (command : ResolvedCommand) (game : Game) (st : GameState) :
    ActionResult × GameState :=
  if !optTruthy command.direct_object_id then
    ({ message := "Put what?", success := false }, st)
  else if !optTruthy command.indirect_object_id then
    ({ message := "Put it where?", success := false }, st)
  else
    let oid := command.direct_object_id.getD ""
    let cid := command.indirect_object_id.getD ""
    match game.get_object oid with
    | Option.none => ({ message := "You can't see that here.", success := false }, st)
    | some obj =>
      match game.get_object cid with
      | Option.none => ({ message := "You can't see that here.", success := false }, st)
      | some container =>
        if !st.is_in_inventory oid then
          ({ message := "You're not holding the " ++ obj.name ++ ".",
             success := false }, st)
        else
          let container_state? := assocGet st.objects cid
          let inFail : Option ActionResult :=
            if command.preposition == some Preposition.IN then
              if !container.container then
                some { message := "You can't put things in the " ++ container.name ++ ".",
                       success := false }
              else
                match container_state? with
                | some container_state =>
                    if !container_state.is_open.truthy then
                      some { message := "The " ++ container.name ++ " is closed.",
                             success := false }
                    else Option.none
                | Option.none => Option.none
            else Option.none
          match inFail with
          | some r => (r, st)
          | Option.none =>
              let st := st.remove_from_inventory oid
              let st := st.move_object oid cid
              ({ message := "Done." }, st)

/-- `handle_give` (engine/actions.py): on a successful recipient-keyed
custom action the object is removed from the inventory LIST but its
`location` attribute is not touched. -/
def handle_give (command : ResolvedCommand) (game : Game) (st : GameState) :
    ActionResult × GameState :=
  if !optTruthy command.direct_object_id then
    ({ message := "Give what?", success := false }, st)
  else if !optTruthy command.indirect_object_id then
    ({ message := "Give it to whom?", success := false }, st)
  else
    let oid := command.direct_object_id.getD ""
    let rid := command.indirect_object_id.getD ""
    match game.get_object oid with
    | Option.none => ({ message := "You can't see that here.", success := false }, st)
    | some obj =>
      match game.get_object rid with
      | Option.none => ({ message := "You can't see that here.", success := false }, st)
      | some recipient =>
        if !st.is_in_inventory oid then
          ({ message := "You're not holding the " ++ obj.name ++ ".",
             success := false }, st)
        else
          let action_key := "give:" ++ rid
          match _get_custom_action obj action_key st with
          | some custom_msg =>
              if custom_msg ≠ "" then
                ({ message := custom_msg }, st.remove_from_inventory oid)
              else
                ({ message := "The " ++ recipient.name ++ " doesn't seem interested.",
                   success := false }, st)
          | Option.none =>
              ({ message := "The " ++ recipient.name ++ " doesn't seem interested.",
                 success := false }, st)

/-- `handle_lock` (engine/actions.py). -/
def handle_lock (command : ResolvedCommand) (game : Game) (st : GameState) :
    ActionResult × GameState :=
  if !optTruthy command.direct_object_id then
    ({ message := "Lock what?", success := false }, st)
  else if !optTruthy command.indirect_object_id then
    ({ message := "Lock it with what?", success := false }, st)
  else
    let oid := command.direct_object_id.getD ""
    let kid := command.indirect_object_id.getD ""
    match game.get_object oid, game.get_object kid with
    | some obj, some key =>
      (match assocGet st.objects oid with
       | Option.none => ({ message := "You can't see that here.", success := false }, st)
       | some obj_state =>
         if !obj.lockable then
           ({ message := "You can't lock the " ++ obj.name ++ ".", success := false }, st)
         else if obj_state.locked.truthy then
           ({ message := "It's already locked.", success := false }, st)
         else if obj_state.is_open.truthy then
           ({ message := "You'll need to close it first.", success := false }, st)
         else if obj.key_object ≠ some kid then
           ({ message := "The " ++ key.name ++ " doesn't fit.", success := false }, st)
         else
           let st := { st with objects :=
             (assocUpdate st.objects oid (fun os => { os with locked := .bool true })) }
           ({ message := "Locked." }, st))
    | _, _ => ({ message := "You can't see that here.", success := false }, st)

/-- `handle_unlock` (engine/actions.py). -/
def handle_unlock (command : ResolvedCommand) (game : Game) (st : GameState) :
    ActionResult × GameState :=
  if !optTruthy command.direct_object_id then
    ({ message := "Unlock what?", success := false }, st)
  else if !optTruthy command.indirect_object_id then
    ({ message := "Unlock it with what?", success := false }, st)
  else
    let oid := command.direct_object_id.getD ""
    let kid := command.indirect_object_id.getD ""
    match game.get_object oid, game.get_object kid with
    | some obj, some key =>
      (match assocGet st.objects oid with
       | Option.none => ({ message := "You can't see that here.", success := false }, st)
       | some obj_state =>
         if !obj.lockable then
           ({ message := "You can't unlock the " ++ obj.name ++ ".", success := false }, st)
         else if !obj_state.locked.truthy then
           ({ message := "It's not locked.", success := false }, st)
         else if obj.key_object ≠ some kid then
           ({ message := "The " ++ key.name ++ " doesn't fit.", success := false }, st)
         else
           let st := { st with objects :=
             (assocUpdate st.objects oid (fun os => { os with locked := .bool false })) }
           ({ message := "Unlocked." }, st))
    | _, _ => ({ message := "You can't see that here.", success := false }, st)

/-- `handle_use` (engine/actions.py). -/
def handle_use (command : ResolvedCommand) (game : Game) (st : GameState) :
    ActionResult × GameState :=
  if !optTruthy command.direct_object_id then
    ({ message := "Use what?", success := false }, st)
  else
    let oid := command.direct_object_id.getD ""
    match game.get_object oid with
    | Option.none => ({ message := "You can't see that here.", success := false }, st)
    | some obj =>
      if optTruthy command.indirect_object_id then
        let iid := command.indirect_object_id.getD ""
        let action_key := "use_with:" ++ iid
        match _execute_custom_action obj action_key game st with
        | (some result, st') => (result, st')
        | (Option.none, _) =>
            let target_name := ((game.get_object iid).map GameObject.name).getD "that"
            ({ message := "You can't use the " ++ obj.name ++ " with the " ++
                 target_name ++ ".", success := false }, st)
      else
        match _execute_custom_action obj "use" game st with
        | (some result, st') => (result, st')
        | (Option.none, _) =>
            ({ message := "You're not sure how to use the " ++ obj.name ++ ".",
               success := false }, st)

/-- `handle_talk` (engine/actions.py). -/
def handle_talk (command : ResolvedCommand) (game : Game) (st : GameState) :
    ActionResult × GameState :=
  if !optTruthy command.direct_object_id then
    ({ message := "Talk to whom?", success := false }, st)
  else
    let oid := command.direct_object_id.getD ""
    match game.get_object oid with
    | Option.none => ({ message := "You can't see that here.", success := false }, st)
    | some obj =>
      match _execute_custom_action obj "talk" game st with
      | (some result, st') => (result, st')
      | (Option.none, _) =>
          ({ message := "The " ++ obj.name ++ " doesn't respond.", success := false }, st)

/-- The early-return loop `for obj_id in room.objects: ... if result:
return result`, executing the first applicable custom action. -/
def firstRoomAction (ids : List String) (action_key : String) (game : Game)
    (st : GameState) : Option (ActionResult × GameState) :=
  match ids with
  | [] => Option.none
  | obj_id :: rest =>
      match game.get_object obj_id with
      | some room_obj =>
          (match _execute_custom_action room_obj action_key game st with
           | (some result, st') => some (result, st')
           | (Option.none, _) => firstRoomAction rest action_key game st)
      | Option.none => firstRoomAction rest action_key game st

/-- `handle_show` (engine/actions.py). -/
def handle_show (command : ResolvedCommand) (game : Game) (st : GameState) :
    ActionResult × GameState :=
  if !optTruthy command.direct_object_id then
    ({ message := "Show what?", success := false }, st)
  else
    let oid := command.direct_object_id.getD ""
    match game.get_object oid with
    | Option.none => ({ message := "You can't see that here.", success := false }, st)
    | some obj =>
      if !st.is_in_inventory oid then
        ({ message := "You're not holding the " ++ obj.name ++ ".",
           success := false }, st)
      else if optTruthy command.indirect_object_id then
        let rid := command.indirect_object_id.getD ""
        match game.get_object rid with
        | Option.none => ({ message := "You can't see that here.", success := false }, st)
        | some recipient =>
          let action_key := "show:" ++ oid
          match _execute_custom_action recipient action_key game st with
          | (some result, st') => (result, st')
          | (Option.none, _) =>
            match _execute_custom_action recipient "show" game st with
            | (some result, st') => (result, st')
            | (Option.none, _) =>
                ({ message := "The " ++ recipient.name ++ " doesn't seem interested.",
                   success := false }, st)
      else
        let roomTry :=
          match game.get_room st.current_room with
          | some current_room => firstRoomAction current_room.objects "show" game st
          | Option.none => Option.none
        match roomTry with
        | some r => r
        | Option.none =>
            ({ message := "You wave it around but nothing happens.",
               success := false }, st)

/-- `handle_sing` (engine/actions.py). -/
def handle_sing (command : ResolvedCommand) (game : Game) (st : GameState) :
    ActionResult × GameState :=
  let roomTry :=
    match game.get_room st.current_room with
    | some current_room => firstRoomAction current_room.objects "sing" game st
    | Option.none => Option.none
  match roomTry with
  | some r => r
  | Option.none =>
    let directTry :=
      if optTruthy command.direct_object_id then
        match game.get_object (command.direct_object_id.getD "") with
        | some obj =>
            (match _execute_custom_action obj "sing" game st with
             | (some result, st') => some (result, st')
             | (Option.none, _) => Option.none)
        | Option.none => Option.none
      else Option.none
    match directTry with
    | some r => r
    | Option.none =>
        ({ message := "You sing a little tune. Nothing happens.", success := true }, st)

/-- The early-return loop of `handle_insert` over the room's objects. -/
def firstInsertAction (ids : List String) (item : GameObject)
    (action_key fallback : String) (game : Game) (st : GameState) :
    Option (ActionResult × GameState) :=
  match ids with
  | [] => Option.none
  | target_id :: rest =>
      match game.get_object target_id with
      | some target =>
          (match _execute_custom_action_with_hint item target action_key fallback
                   game st with
           | (some result, st') => some (result, st')
           | (Option.none, _) => firstInsertAction rest item action_key fallback game st)
      | Option.none => firstInsertAction rest item action_key fallback game st

/-- `handle_insert` (engine/actions.py). -/
def handle_insert (command : ResolvedCommand) (game : Game) (st : GameState) :
    ActionResult × GameState :=
  if !optTruthy command.direct_object_id then
    ({ message := "Insert what?", success := false }, st)
  else
    let oid := command.direct_object_id.getD ""
    match game.get_object oid with
    | Option.none => ({ message := "You can't see that here.", success := false }, st)
    | some obj =>
      if !st.is_in_inventory oid then
        ({ message := "You're not holding the " ++ obj.name ++ ".",
           success := false }, st)
      else if optTruthy command.indirect_object_id then
        let tid := command.indirect_object_id.getD ""
        match game.get_object tid with
        | Option.none => ({ message := "You can't see that here.", success := false }, st)
        | some target =>
          let action_key := "insert:" ++ oid
          match _execute_custom_action_with_hint obj target action_key "insert"
                  game st with
          | (some result, st') => (result, st')
          | (Option.none, _) =>
              ({ message := "You can't insert the " ++ obj.name ++ " into the " ++
                   target.name ++ ".", success := false }, st)
      else
        let roomTry :=
          match game.get_room st.current_room with
          | some current_room =>
              firstInsertAction current_room.objects obj ("insert:" ++ oid) "insert"
                game st
          | Option.none => Option.none
        match roomTry with
        | some r => r
        | Option.none =>
            ({ message := "You're not sure where to insert the " ++ obj.name ++ ".",
               success := false }, st)

/-- `execute_action` (engine/actions.py): the verb-handler dispatch. -/
def execute_action (command : ResolvedCommand) (game : Game) (st : GameState) :
    ActionResult × GameState :=
  match command.verb with
  | .TAKE => handle_take command game st
  | .DROP => handle_drop command game st
  | .EXAMINE => handle_examine command game st
  | .READ => handle_read command game st
  | .OPEN => handle_open command game st
  | .CLOSE => handle_close command game st
  | .PUT => handle_put command game st
  | .GIVE => handle_give command game st
  | .LOCK => handle_lock command game st
  | .UNLOCK => handle_unlock command game st
  | .USE => handle_use command game st
  | .TALK => handle_talk command game st
  | .SHOW => handle_show command game st
  | .SING => handle_sing command game st
  | .INSERT => handle_insert command game st
  | _ => ({ message := "I don't know how to do that.", success := false }, st)

/-! ## engine/engine.py — the turn engine -/

/-- `TurnResult` (engine/engine.py). -/
structure TurnResult where
  message : String
  game_over : Bool := false
  won : Bool := false
  error : Bool := false
deriving Repr, DecidableEq

/-- `GameEngine._describe_exits`. -/
def _describe_exits (room : Room) : String :=
  let visible_exits := (room.exits.filter (fun p =>
    match p.2 with
    | .exitRec e => !e.hidden
    | .str _ => true)).map Prod.fst
  match visible_exits with
  | [] => "There are no obvious exits."
  | [d] => "There is an exit to the " ++ d ++ "."
  | _ =>
      let exit_str := String.intercalate ", " visible_exits.dropLast ++
        " and " ++ (visible_exits.getLast?).getD ""
      "There are exits to the " ++ exit_str ++ "."

/-- `GameEngine.describe_current_room` (the `verbose` argument is unused
in the source, noqa'd). -/
def describe_current_room (game : Game) (st : GameState) (_verbose : Bool := false) :
    String × GameState :=
  let room_id := st.current_room
  match game.get_room room_id with
  | Option.none => ("You are nowhere.", st)
  | some room =>
    let room_state? := assocGet st.rooms room_id
    let first_visit :=
      match room_state? with
      | some rs => !rs.visited
      | Option.none => false
    let st := { st with rooms :=
      (assocUpdate st.rooms room_id (fun rs => { rs with visited := true })) }
    let lines := ["**" ++ room.name ++ "**", ""]
    let lines := lines ++
      [if first_visit && optTruthy room.first_visit_description then
         room.first_visit_description.getD ""
       else room.description]
    let visible_objects := st.get_visible_objects_at room_id game
    let lines :=
      if !visible_objects.isEmpty then
        lines ++ [""] ++ (visible_objects.filterMap (fun obj_id =>
          match game.get_object obj_id with
          | some obj =>
              if !obj.scenery then some ("There is a " ++ obj.name ++ " here.")
              else Option.none
          | Option.none => Option.none))
      else lines
    let exits := _describe_exits room
    let lines := if exits ≠ "" then lines ++ ["", exits] else lines
    (String.intercalate "\n" lines, st)

/-- The `direction_map.get(direction_verb, "")` of
`GameEngine._handle_movement`. -/
def directionName : Verb → String
  | .NORTH => "north" | .SOUTH => "south" | .EAST => "east" | .WEST => "west"
  | .UP => "up" | .DOWN => "down" | .IN => "in" | .OUT => "out"
  | _ => ""

/-- `GameEngine._handle_movement`. -/
def _handle_movement (game : Game) (st : GameState) (direction_verb : Verb) :
    TurnResult × GameState :=
  let direction := directionName direction_verb
  match game.get_room st.current_room with
  | Option.none => ({ message := "You are nowhere.", error := true }, st)
  | some room =>
    match assocGet room.exits direction with
    | Option.none =>
        ({ message := "You can't go " ++ direction ++ " from here.", error := true }, st)
    | some exit_info =>
      let target? : String ⊕ TurnResult :=
        match exit_info with
        | .str target_room => Sum.inl target_room
        | .exitRec e =>
            if e.locked then Sum.inr { message := e.lock_message, error := true }
            else Sum.inl e.target
      match target? with
      | Sum.inr r => (r, st)
      | Sum.inl target_room =>
          let st := { st with current_room := target_room }
          let (desc, st) := describe_current_room game st
          ({ message := desc }, st)

/-- `GameEngine._describe_inventory`. -/
def _describe_inventory (game : Game) (st : GameState) : String :=
  if st.inventory.isEmpty then "You are empty-handed."
  else
    String.intercalate "\n"
      ("You are carrying:" ::
        st.inventory.filterMap (fun obj_id =>
          (game.get_object obj_id).map (fun obj => "  - " ++ obj.name)))

mutual

/-- `GameEngine._evaluate_win_condition`: recursive evaluation of the
win-condition tree.  Empty `all_of`/`any_of` condition lists (and `None`,
which the engine treats identically) evaluate to `false`. -/
def _evaluate_win_condition (st : GameState) : WinCondition → Bool
  | .mk ty room object flag conditions _ =>
    match ty with
    | .reach_room => room == some st.current_room
    | .have_object =>
        (match object with
         | some o => if o ≠ "" then st.inventory.contains o else false
         | Option.none => false)
    | .flag_set =>
        (match flag with
         | some f => if f ≠ "" then (st.get_flag f).truthy else false
         | Option.none => false)
    | .all_of => if conditions.isEmpty then false else evalWinAll st conditions
    | .any_of => if conditions.isEmpty then false else evalWinAny st conditions

/-- `all(...)` over child conditions. -/
def evalWinAll (st : GameState) : List WinCondition → Bool
  | [] => true
  | c :: cs => _evaluate_win_condition st c && evalWinAll st cs

/-- `any(...)` over child conditions. -/
def evalWinAny (st : GameState) : List WinCondition → Bool
  | [] => false
  | c :: cs => _evaluate_win_condition st c || evalWinAny st cs

end

/-- `GameEngine._check_win_condition`. -/
def _check_win_condition (game : Game) (st : GameState) : Option String × GameState :=
  if _evaluate_win_condition st game.win_condition then
    (some game.win_condition.win_message, st.end_game true)
  else (Option.none, st)

/-- `GameEngine._get_help_text`. -/
def _get_help_text : String :=
  "**Available Commands**\n\nMovement:\n  NORTH (N), SOUTH (S), EAST (E), WEST (W)\n" ++
  "  UP (U), DOWN (D), IN, OUT\n\nObjects:\n  TAKE/GET <object> - Pick up an object\n" ++
  "  DROP <object> - Drop an object\n  EXAMINE/X <object> - Look at something closely\n" ++
  "  OPEN/CLOSE <object> - Open or close something\n" ++
  "  PUT <object> IN/ON <container> - Put something somewhere\n" ++
  "  UNLOCK <door> WITH <key> - Unlock something\n\nInformation:\n" ++
  "  LOOK (L) - Describe your surroundings\n  INVENTORY (I) - List what you're carrying\n" ++
  "  HELP - Show this message\n\nGame:\n  QUIT (Q) - End the game\n" ++
  "  SAVE - Save your progress\n  LOAD - Load a saved game"

/-- `GameEngine.process_input`: the turn entry point.  The engine stores
its `GameParser` and `ObjectResolver` at construction; both are pure
functions of the game (and current state), so they are reconstructed here
per call, which is observationally identical. -/
def process_input (game : Game) (st : GameState) (user_input : String) :
    TurnResult × GameState :=
  if st.game_over then
    if st.won then
      ({ message := "The game is over. You won!", game_over := true, won := true }, st)
    else
      ({ message := pyOr st.death_message "The game is over.",
         game_over := true, won := false }, st)
  else
    let parse_result := (GameParser.init game).parse user_input
    match parse_result.command with
    | Option.none =>
        ({ message :=
             (match parse_result.error with
              | some e => e.message
              | Option.none => "I don't understand."),
           error := true }, st)
    | some command =>
      if command.verb = Verb.QUIT then
        ({ message := "Thanks for playing!", game_over := true, won := false },
         st.end_game false)
      else if command.verb = Verb.HELP then
        ({ message := _get_help_text }, st)
      else if command.verb = Verb.SAVE then
        ({ message := "Save functionality not yet implemented." }, st)
      else if command.verb = Verb.LOAD then
        ({ message := "Load functionality not yet implemented." }, st)
      else if command.verb = Verb.LOOK && !optTruthy command.direct_object then
        let (desc, st) := describe_current_room game st true
        ({ message := desc }, st)
      else if command.verb = Verb.INVENTORY then
        ({ message := _describe_inventory game st }, st)
      else if command.verb = Verb.WAIT then
        ({ message := "Time passes." }, st.increment_turns)
      else
        -- ENTER <object>: a custom "enter" action pre-empts movement.
        -- NOTE: the turn counter is incremented here regardless of
        -- `action_result.success`.
        let enterTry : Option (TurnResult × GameState) :=
          if command.verb = Verb.IN && optTruthy command.direct_object then
            let resolved := resolve game st command
            match resolved.resolved with
            | some rc =>
                if optTruthy rc.direct_object_id then
                  match game.get_object (rc.direct_object_id.getD "") with
                  | some obj =>
                      if (assocGet obj.actions "enter").isSome then
                        match _execute_custom_action obj "enter" game st with
                        | (some action_result, st') =>
                            let st' := st'.increment_turns
                            let (win_msg, st') := _check_win_condition game st'
                            (match win_msg with
                             | some w =>
                                 some ({ message := action_result.message ++ "\n\n" ++ w,
                                         game_over := true, won := true }, st')
                             | Option.none =>
                                 some ({ message := action_result.message,
                                         error := !action_result.success }, st'))
                        | (Option.none, _) => Option.none
                      else Option.none
                  | Option.none => Option.none
                else Option.none
            | Option.none => Option.none
          else Option.none
        match enterTry with
        | some r => r
        | Option.none =>
          if [Verb.NORTH, Verb.SOUTH, Verb.EAST, Verb.WEST, Verb.UP, Verb.DOWN,
              Verb.IN, Verb.OUT].contains command.verb then
            let (result, st) := _handle_movement game st command.verb
            if !result.error then
              let st := st.increment_turns
              let (win_msg, st) := _check_win_condition game st
              match win_msg with
              | some w =>
                  let msg := result.message ++ "\n\n" ++ w
                  ({ result with message := msg, game_over := true, won := true }, st)
              | Option.none => (result, st)
            else (result, st)
          else
            let resolved := resolve game st command
            match resolved.resolved with
            | Option.none =>
                ({ message := pyOr resolved.error_message "I don't understand.",
                   error := true }, st)
            | some rc =>
              let (action_result, st) := execute_action rc game st
              if action_result.success then
                let st := st.increment_turns
                let (win_msg, st) := _check_win_condition game st
                match win_msg with
                | some w =>
                    ({ message := action_result.message ++ "\n\n" ++ w,
                       game_over := true, won := true }, st)
                | Option.none =>
                    ({ message := action_result.message,
                       error := !action_result.success }, st)
              else
                ({ message := action_result.message,
                   error := !action_result.success }, st)

/-- A whole session driven through the turn entry point: the state after
processing each input line in order (the caller loop of §6). -/
def processInputs (game : Game) : List String → GameState → GameState
  | [], st => st
  | i :: is, st => processInputs game is (process_input game st i).2

/-! ## Association-list and effect-pipeline lemmas -/

theorem assocGet_assocUpdate_self {α : Type} (l : List (String × α)) (k : String)
    (f : α → α) : assocGet (assocUpdate l k f) k = (assocGet l k).map f := by
  induction l with
  | nil => rfl
  | cons p rest ih =>
      by_cases h : p.1 = k <;> simp [assocUpdate, assocGet, h, ih]

theorem assocGet_assocUpdate_ne {α : Type} (l : List (String × α)) (k k' : String)
    (f : α → α) (h : k' ≠ k) :
    assocGet (assocUpdate l k f) k' = assocGet l k' := by
  induction l with
  | nil => rfl
  | cons p rest ih =>
      obtain ⟨pk, pv⟩ := p
      by_cases hp : pk = k
      · subst hp
        simp [assocUpdate, assocGet, Ne.symm h]
      · simp [assocUpdate, assocGet, hp, ih]

theorem assocGet_assocUpdate_isSome {α : Type} (l : List (String × α)) (k k' : String)
    (f : α → α) :
    (assocGet (assocUpdate l k f) k').isSome = (assocGet l k').isSome := by
  by_cases h : k' = k
  · subst h; rw [assocGet_assocUpdate_self]; cases assocGet l k' <;> rfl
  · rw [assocGet_assocUpdate_ne _ _ _ _ h]

theorem applyStateChanges_inventory (changes : List (String × PyValue))
    (st : GameState) : (applyStateChanges changes st).inventory = st.inventory := by
  induction changes generalizing st with
  | nil => rfl
  | cons kv rest ih =>
      obtain ⟨key, value⟩ := kv
      rw [applyStateChanges, ih]
      repeat' split
      all_goals rfl

theorem applyStateChanges_current_room (changes : List (String × PyValue))
    (st : GameState) :
    (applyStateChanges changes st).current_room = st.current_room := by
  induction changes generalizing st with
  | nil => rfl
  | cons kv rest ih =>
      obtain ⟨key, value⟩ := kv
      rw [applyStateChanges, ih]
      repeat' split
      all_goals rfl

theorem applyStateChanges_objects_isSome (changes : List (String × PyValue))
    (st : GameState) (k : String) :
    (assocGet (applyStateChanges changes st).objects k).isSome =
      (assocGet st.objects k).isSome := by
  induction changes generalizing st with
  | nil => rfl
  | cons kv rest ih =>
      obtain ⟨key, value⟩ := kv
      rw [applyStateChanges, ih]
      repeat' split
      all_goals first
        | rfl
        | simp [assocGet_assocUpdate_isSome]

theorem applyReveal_inventory (r : Option String) (st : GameState) :
    (applyReveal r st).inventory = st.inventory := by
  cases r with
  | none => rfl
  | some s => rw [applyReveal]; split <;> rfl

theorem applyReveal_current_room (r : Option String) (st : GameState) :
    (applyReveal r st).current_room = st.current_room := by
  cases r with
  | none => rfl
  | some s => rw [applyReveal]; split <;> rfl

theorem applyReveal_objects_isSome (r : Option String) (st : GameState) (k : String) :
    (assocGet (applyReveal r st).objects k).isSome =
      (assocGet st.objects k).isSome := by
  cases r with
  | none => rfl
  | some s =>
      rw [applyReveal]
      split
      · simp [assocGet_assocUpdate_isSome]
      · rfl

theorem applyMovesPlayer_inventory (m : Option String) (st : GameState) :
    (applyMovesPlayer m st).inventory = st.inventory := by
  cases m with
  | none => rfl
  | some s => rw [applyMovesPlayer]; split <;> rfl

theorem applyMovesPlayer_objects (m : Option String) (st : GameState) :
    (applyMovesPlayer m st).objects = st.objects := by
  cases m with
  | none => rfl
  | some s => rw [applyMovesPlayer]; split <;> rfl

/-! ## Claim C9 — boolean win-condition combinators -/

/-- C9: for every state and child conditions A and B, `all_of([A,B])` is
true iff both A and B evaluate true, `any_of([A,B])` is true iff at least
one does, and both `all_of` and `any_of` are false on an empty condition
list. -/
theorem c9_win_condition_boolean_ops (st : GameState) (A B : WinCondition)
    (r o f : Option String) (m₁ m₂ m₃ m₄ : String) :
    (_evaluate_win_condition st (.mk .all_of r o f [A, B] m₁) = true ↔
      (_evaluate_win_condition st A = true ∧ _evaluate_win_condition st B = true)) ∧
    (_evaluate_win_condition st (.mk .any_of r o f [A, B] m₂) = true ↔
      (_evaluate_win_condition st A = true ∨ _evaluate_win_condition st B = true)) ∧
    _evaluate_win_condition st (.mk .all_of r o f [] m₃) = false ∧
    _evaluate_win_condition st (.mk .any_of r o f [] m₄) = false := by
  refine ⟨?_, ?_, rfl, rfl⟩ <;>
    simp [_evaluate_win_condition, evalWinAll, evalWinAny]

/-! ## Claim C8 — the ended state is absorbing -/

/-- C8: once `game_over` is set, every call to the turn entry point
returns the fixed game-over result determined by the ended state and
leaves the state untouched; iterating any input sequence never changes
the state again. -/
theorem c8_game_over_absorbing (game : Game) (st : GameState)
    (h : st.game_over = true) :
    (∀ input : String,
       process_input game st input =
         ((if st.won then
             { message := "The game is over. You won!", game_over := true, won := true }
           else
             { message := pyOr st.death_message "The game is over.",
               game_over := true, won := false } : TurnResult), st)) ∧
    (∀ inputs : List String, processInputs game inputs st = st) := by
  have h1 : ∀ input : String,
      process_input game st input =
        ((if st.won then
            { message := "The game is over. You won!", game_over := true, won := true }
          else
            { message := pyOr st.death_message "The game is over.",
              game_over := true, won := false } : TurnResult), st) := by
    intro input
    cases hw : st.won <;> simp [process_input, h, hw]
  refine ⟨h1, ?_⟩
  intro inputs
  induction inputs with
  | nil => rfl
  | cons i is ih => rw [processInputs, h1 i, ih]

/-- A closed instance discharging the hypothesis of
`c8_game_over_absorbing` at a concrete ended state. -/
theorem c8_game_over_absorbing_witness :
    (({ current_room := "start", game_over := true : GameState}).game_over = true) ∧
    processInputs
      { rooms := [{ id := "start", name := "Start", description := "A room." }],
        initial_state := { current_room := "start" },
        win_condition := .mk .flag_set Option.none Option.none (some "win") []
          "You win!" }
      ["look", "take key", "north"]
      { current_room := "start", game_over := true } =
      { current_room := "start", game_over := true } :=
  ⟨rfl,
   (c8_game_over_absorbing _ { current_room := "start", game_over := true } rfl).2
     ["look", "take key", "north"]⟩

/-! ## Claim C4 — coin in a closed box scenario -/

/-- The C4 scenario world: object `coin` inside container `box`
(`is_open = false`), `box` in the current room, nothing hidden. -/
def c4Game : Game :=
  { rooms := [{ id := "room1", name := "Room", description := "A room." }],
    objects := [
      { id := "box", name := "box", description := "A box.", location := "room1",
        takeable := false, openable := true, container := true },
      { id := "coin", name := "coin", description := "A coin.", location := "box" }],
    initial_state := { current_room := "room1" },
    win_condition := .mk .flag_set Option.none Option.none (some "never_set") []
      "Congratulations! You have won!" }

/-- C4: `take coin` fails with the not-found resolution message and
mutates nothing; after `open box` succeeds, `take coin` succeeds and
`coin`'s recorded location becomes `"inventory"`. -/
theorem c4_closed_container_visibility :
    (process_input c4Game (GameState.from_game c4Game) "take coin").1.error = true ∧
    (process_input c4Game (GameState.from_game c4Game) "take coin").1.message =
      "You can't see any coin here." ∧
    (process_input c4Game (GameState.from_game c4Game) "take coin").2 =
      GameState.from_game c4Game ∧
    (process_input c4Game (GameState.from_game c4Game) "open box").1.error = false ∧
    (process_input c4Game
      ((process_input c4Game (GameState.from_game c4Game) "open box").2)
      "take coin").1.error = false ∧
    ((assocGet (process_input c4Game
        ((process_input c4Game (GameState.from_game c4Game) "open box").2)
        "take coin").2.objects "coin").map ObjectState.location) =
      some (.str "inventory") :=
  ⟨rfl, rfl, rfl, rfl, rfl, rfl⟩

/-! ## Claim C1 — turn counting (code bug on the failed-ENTER path) -/

/-- The C1 failing world: a `door` whose custom `enter` action has a false
condition and no `fail_message`. -/
def c1Game : Game :=
  { rooms := [{ id := "start", name := "Start", description := "A room." }],
    objects := [
      { id := "door", name := "door", description := "A door.", location := "start",
        takeable := false,
        actions := [("enter", .act { message := "You step through.",
                                     condition := some "door.is_open" })] }],
    initial_state := { current_room := "start" },
    win_condition := .mk .flag_set Option.none Option.none (some "never_set") []
      "Congratulations! You have won!" }

/-- C1 (code bug): processing `enter door` when the door's custom `enter`
action fails its condition returns an error result, yet the turn counter
is incremented — a failed action that consumes a turn, contradicting the
"failed actions cost nothing" contract. -/
theorem c1_failed_enter_consumes_turn :
    (process_input c1Game (GameState.from_game c1Game) "enter door").1.error = true ∧
    (process_input c1Game (GameState.from_game c1Game) "enter door").1.message =
      "Nothing happens." ∧
    (process_input c1Game (GameState.from_game c1Game) "enter door").2.turns =
      (GameState.from_game c1Game).turns + 1 :=
  ⟨rfl, rfl, rfl⟩

/-! ## Claim C2 — `consumes_object` (no-op on the INSERT path) -/

/-- The C2 counterexample world: `slot` carries an `insert:gem` custom
action with `consumes_object = true`; `gem` starts in the inventory. -/
def c2Game : Game :=
  { rooms := [{ id := "start", name := "Start", description := "A room.",
                objects := ["slot"] }],
    objects := [
      { id := "gem", name := "gem", description := "A gem.", location := "inventory" },
      { id := "slot", name := "slot", description := "A slot.", location := "start",
        takeable := false,
        actions := [("insert:gem", .act { message := "It fits.",
                                          consumes_object := true })] }],
    initial_state := { current_room := "start", inventory := ["gem"] },
    win_condition := .mk .flag_set Option.none Option.none (some "never_set") []
      "Congratulations! You have won!" }

/-- C2 (counterexample): on the INSERT handler's path, a custom action
with `consumes_object = true` executes successfully and yet the acting
object stays in the inventory list and keeps location `"inventory"`
(instead of being removed and relocated to `"nowhere"`). -/
theorem c2_insert_consumption_counterexample :
    (match assocGet
        (((c2Game.get_object "slot").getD
          { id := "", name := "", location := "" }).actions) "insert:gem" with
     | some (.act a) => a.consumes_object
     | _ => false) = true ∧
    (handle_insert
      { verb := .INSERT, direct_object_id := some "gem",
        preposition := some .IN, indirect_object_id := some "slot" }
      c2Game (GameState.from_game c2Game)).1 =
      { message := "It fits.", success := true } ∧
    (handle_insert
      { verb := .INSERT, direct_object_id := some "gem",
        preposition := some .IN, indirect_object_id := some "slot" }
      c2Game (GameState.from_game c2Game)).2.inventory = ["gem"] ∧
    ((assocGet (handle_insert
        { verb := .INSERT, direct_object_id := some "gem",
          preposition := some .IN, indirect_object_id := some "slot" }
        c2Game (GameState.from_game c2Game)).2.objects "gem").map
      ObjectState.location) = some (.str "inventory") :=
  ⟨rfl, rfl, rfl, rfl⟩

theorem remove_from_inventory_objects (st : GameState) (i : String) :
    (st.remove_from_inventory i).objects = st.objects := by
  unfold GameState.remove_from_inventory; split <;> rfl

theorem move_object_inventory (st : GameState) (i l : String) :
    (st.move_object i l).inventory = st.inventory := rfl

/-- C2 (amended): a custom action with `consumes_object` executed through
`_execute_custom_action` (with its condition absent or satisfied) removes
the acting object from the inventory and relocates it to `"nowhere"`;
but `_apply_action_effects` — the executor used on the INSERT handler's
path — never modifies the inventory, so consumption is a no-op there. -/
theorem c2_amended_consumption :
    (∀ (game : Game) (st : GameState) (obj : GameObject) (key : String)
       (a : ObjectAction),
       assocGet obj.actions key = some (.act a) →
       a.consumes_object = true →
       (optTruthy a.condition = true →
         _evaluate_condition (a.condition.getD "") st = true) →
       st.inventory.count obj.id ≤ 1 →
       (assocGet st.objects obj.id).isSome = true →
       obj.id ∉ (_execute_custom_action obj key game st).2.inventory ∧
       ((assocGet (_execute_custom_action obj key game st).2.objects obj.id).map
         ObjectState.location) = some (.str "nowhere")) ∧
    (∀ (a : ObjectAction) (st : GameState),
       (_apply_action_effects a st).2.inventory = st.inventory) := by
  constructor
  · intro game st obj key a hkey hcons hcond hcount hpresent
    have hfail :
        (optTruthy a.condition &&
          !_evaluate_condition (a.condition.getD "") st) = false := by
      cases hoc : optTruthy a.condition with
      | false => rfl
      | true => simp [hcond hoc]
    have hred :
        (_execute_custom_action obj key game st).2 =
          applyMovesPlayer a.moves_player
            (((applyReveal a.reveals_object
                (applyStateChanges a.state_changes st)).remove_from_inventory
              obj.id).move_object obj.id "nowhere") := by
      simp only [_execute_custom_action, hkey, hfail, hcons, Bool.false_eq_true,
        if_false, if_true]
    rw [hred]
    -- names for the intermediate states of the effect pipeline
    set st2 := applyReveal a.reveals_object (applyStateChanges a.state_changes st)
      with hst2
    have hinv2 : st2.inventory = st.inventory := by
      rw [hst2, applyReveal_inventory, applyStateChanges_inventory]
    have hobjs2 : (assocGet st2.objects obj.id).isSome = true := by
      rw [hst2, applyReveal_objects_isSome, applyStateChanges_objects_isSome]
      exact hpresent
    constructor
    · rw [applyMovesPlayer_inventory, move_object_inventory]
      unfold GameState.remove_from_inventory
      split
      · next hc =>
          simp only [hinv2]
          have : (st.inventory.erase obj.id).count obj.id = 0 := by
            rw [List.count_erase_self]
            omega
          exact List.count_eq_zero.mp this
      · next hc =>
          rw [hinv2] at hc
          intro hmem
          rw [hinv2] at hmem
          simp [List.contains, List.elem_eq_mem] at hc
          exact hc hmem
    · rw [applyMovesPlayer_objects]
      unfold GameState.move_object
      have hsome :
          (assocGet (st2.remove_from_inventory obj.id).objects obj.id).isSome = true := by
        rw [remove_from_inventory_objects]; exact hobjs2
      obtain ⟨os2, hos2⟩ := Option.isSome_iff_exists.mp hsome
      simp [assocGet_assocUpdate_self, hos2]
  · intro a st
    unfold _apply_action_effects
    rw [applyMovesPlayer_inventory, applyReveal_inventory, applyStateChanges_inventory]

/-- A closed instance discharging the hypotheses of
`c2_amended_consumption` at a concrete consumable action. -/
theorem c2_amended_consumption_witness :
    "gem" ∉ (_execute_custom_action
        { id := "gem", name := "gem", description := "A gem.",
          location := "inventory",
          actions := [("rub", .act { message := "Poof.", consumes_object := true })] }
        "rub"
        { rooms := [{ id := "start", name := "Start", description := "A room." }],
          initial_state := { current_room := "start" },
          win_condition := .mk .flag_set Option.none Option.none (some "w") [] "W" }
        { current_room := "start", inventory := ["gem"],
          objects := [("gem", { location := .str "inventory" })] }).2.inventory ∧
    ((assocGet (_execute_custom_action
        { id := "gem", name := "gem", description := "A gem.",
          location := "inventory",
          actions := [("rub", .act { message := "Poof.", consumes_object := true })] }
        "rub"
        { rooms := [{ id := "start", name := "Start", description := "A room." }],
          initial_state := { current_room := "start" },
          win_condition := .mk .flag_set Option.none Option.none (some "w") [] "W" }
        { current_room := "start", inventory := ["gem"],
          objects := [("gem", { location := .str "inventory" })] }).2.objects
      "gem").map ObjectState.location) = some (.str "nowhere") :=
  c2_amended_consumption.1 _
    { current_room := "start", inventory := ["gem"],
      objects := [("gem", { location := .str "inventory" })] }
    { id := "gem", name := "gem", description := "A gem.", location := "inventory",
      actions := [("rub", .act { message := "Poof.", consumes_object := true })] }
    "rub" { message := "Poof.", consumes_object := true }
    rfl rfl (fun h => by simp [optTruthy] at h) (by decide) rfl

/-! ## Claim C10 — GIVE removes from the inventory list but not from
`location`, so the object stays visible -/

theorem pv_str_beq_self (s : String) : (PyValue.str s == PyValue.str s) = true := by
  simp [BEq.beq, PyValue.beq]

/-- C10: when GIVE's direct object is held and the recipient-keyed custom
action `give:<recipientId>` yields a (non-empty) message, the handler
removes the object's id from the inventory list but leaves `objects`
untouched — in particular the recorded location stays `"inventory"` — so
the object is still a member of the visibility set afterwards. -/
theorem c10_give_keeps_location (game : Game) (st : GameState)
    (oid rid m : String) (obj recipient : GameObject) (os : ObjectState)
    (hoid : oid ≠ "") (hrid : rid ≠ "")
    (hobj : game.get_object oid = some obj)
    (hrecip : game.get_object rid = some recipient)
    (hinv : st.inventory.contains oid = true)
    (hact : _get_custom_action obj ("give:" ++ rid) st = some m)
    (hm : m ≠ "")
    (hos : assocGet st.objects oid = some os)
    (hloc : os.location = .str "inventory")
    (hhid : os.hidden.truthy = false) :
    (handle_give { verb := .GIVE, direct_object_id := some oid,
                   preposition := some .TO, indirect_object_id := some rid } game st).1 =
      { message := m, success := true } ∧
    (handle_give { verb := .GIVE, direct_object_id := some oid,
                   preposition := some .TO, indirect_object_id := some rid } game st).2.inventory =
      st.inventory.erase oid ∧
    (handle_give { verb := .GIVE, direct_object_id := some oid,
                   preposition := some .TO, indirect_object_id := some rid } game st).2.objects =
      st.objects ∧
    obj ∈ get_visible_objects game
      (handle_give { verb := .GIVE, direct_object_id := some oid,
                     preposition := some .TO, indirect_object_id := some rid }
        game st).2 := by
  have hred :
      handle_give { verb := .GIVE, direct_object_id := some oid,
                    preposition := some .TO, indirect_object_id := some rid } game st =
        ({ message := m }, st.remove_from_inventory oid) := by
    have hmemInv : oid ∈ st.inventory := by
      simpa [List.contains, List.elem_eq_mem] using hinv
    unfold handle_give
    simp [optTruthy, hoid, hrid, hobj, hrecip, GameState.is_in_inventory, hinv,
      hact, hm, hmemInv]
  have hobjsEq : (st.remove_from_inventory oid).objects = st.objects :=
    remove_from_inventory_objects st oid
  have hinvEq : (st.remove_from_inventory oid).inventory = st.inventory.erase oid := by
    unfold GameState.remove_from_inventory
    rw [if_pos hinv]
  have hidEq : obj.id = oid := by
    have := List.find?_some hobj
    simpa using this
  have hmem : obj ∈ game.objects := List.mem_of_find?_eq_some hobj
  have hcur : (st.remove_from_inventory oid).current_room = st.current_room := by
    unfold GameState.remove_from_inventory
    split <;> rfl
  refine ⟨by rw [hred], by rw [hred]; exact hinvEq, by rw [hred]; exact hobjsEq, ?_⟩
  rw [hred]
  apply List.mem_filter.mpr
  refine ⟨hmem, ?_⟩
  rw [hidEq, hobjsEq, hos]
  simp only [hhid, Bool.false_eq_true, if_false, Bool.not_false, hloc]
  by_cases hc : (PyValue.str "inventory" ==
      PyValue.str (st.remove_from_inventory oid).current_room) = true <;>
    simp [hc, pv_str_beq_self]

/-- The held rose of the C10 witness world. -/
def c10Rose : GameObject :=
  { id := "rose", name := "rose", description := "A rose.", location := "inventory",
    actions := [("give:guard", .str "The guard accepts the rose.")] }

/-- The recipient guard of the C10 witness world. -/
def c10Guard : GameObject :=
  { id := "guard", name := "guard", description := "A guard.", location := "hall",
    takeable := false }

/-- The C10 witness world. -/
def c10Game : Game :=
  { rooms := [{ id := "hall", name := "Hall", description := "A hall." }],
    objects := [c10Rose, c10Guard],
    initial_state := { current_room := "hall", inventory := ["rose"] },
    win_condition := .mk .flag_set Option.none Option.none (some "w") [] "W" }

/-- The C10 witness state. -/
def c10St : GameState :=
  { current_room := "hall", inventory := ["rose"],
    objects := [("rose", { location := .str "inventory" }),
                ("guard", { location := .str "hall" })] }

/-- A closed instance discharging the hypotheses of
`c10_give_keeps_location` at a concrete give. -/
theorem c10_give_keeps_location_witness :
    (handle_give { verb := .GIVE, direct_object_id := some "rose",
                   preposition := some .TO, indirect_object_id := some "guard" }
      c10Game c10St).2.inventory = c10St.inventory.erase "rose" ∧
    c10Rose ∈ get_visible_objects c10Game
      (handle_give { verb := .GIVE, direct_object_id := some "rose",
                     preposition := some .TO, indirect_object_id := some "guard" }
        c10Game c10St).2 :=
  ⟨(c10_give_keeps_location c10Game c10St "rose" "guard" "The guard accepts the rose."
      c10Rose c10Guard { location := .str "inventory" } (by decide) (by decide) rfl rfl
      rfl rfl (by decide) rfl rfl rfl).2.1,
   (c10_give_keeps_location c10Game c10St "rose" "guard" "The guard accepts the rose."
      c10Rose c10Guard { location := .str "inventory" } (by decide) (by decide) rfl rfl
      rfl rfl (by decide) rfl rfl rfl).2.2.2⟩

/-! ## Claim C7 — TAKE then DROP round-trips -/

theorem pv_str_beq (a b : String) :
    (PyValue.str a == PyValue.str b) = (a == b) := rfl

/-- C7: for a takeable, droppable object in the current room, TAKE
succeeds, an immediate DROP succeeds, the object's location is restored to
the room it was taken from, its id is no longer in the inventory, and the
inventory returns to its exact pre-TAKE value (in particular its size). -/
theorem c7_take_drop_roundtrip (game : Game) (st : GameState) (oid : String)
    (obj : GameObject) (os : ObjectState)
    (hoid : oid ≠ "")
    (hobj : game.get_object oid = some obj)
    (hos : assocGet st.objects oid = some os)
    (hloc : os.location = .str st.current_room)
    (hcur : st.current_room ≠ "inventory")
    (htk : obj.takeable = true)
    (hdp : obj.droppable = true)
    (hroomobj : game.get_object st.current_room = Option.none)
    (hninv : st.inventory.contains oid = false) :
    (handle_take { verb := .TAKE, direct_object_id := some oid } game st).1 =
      { message := "Taken.", success := true } ∧
    (handle_drop { verb := .DROP, direct_object_id := some oid } game
      (handle_take { verb := .TAKE, direct_object_id := some oid } game st).2).1 =
      { message := "Dropped.", success := true } ∧
    (handle_drop { verb := .DROP, direct_object_id := some oid } game
      (handle_take { verb := .TAKE, direct_object_id := some oid } game st).2).2.inventory =
      st.inventory ∧
    oid ∉ (handle_drop { verb := .DROP, direct_object_id := some oid } game
      (handle_take { verb := .TAKE, direct_object_id := some oid } game st).2).2.inventory ∧
    ((assocGet (handle_drop { verb := .DROP, direct_object_id := some oid } game
        (handle_take { verb := .TAKE, direct_object_id := some oid } game st).2).2.objects
      oid).map ObjectState.location) = some (.str st.current_room) := by
  have hnotinv : (os.location == PyValue.str "inventory") = false := by
    rw [hloc, pv_str_beq]
    exact beq_eq_false_iff_ne.mpr hcur
  have hnotinv' : (PyValue.str st.current_room == PyValue.str "inventory") = false := by
    rw [pv_str_beq]
    exact beq_eq_false_iff_ne.mpr hcur
  have hninvmem : oid ∉ st.inventory := by
    simpa [List.contains, List.elem_eq_mem] using hninv
  have hred1 :
      handle_take { verb := .TAKE, direct_object_id := some oid } game st =
        ({ message := "Taken.", success := true },
         { st with inventory := st.inventory ++ [oid],
                   objects := (assocUpdate st.objects oid
                     (fun os => { os with location := .str "inventory" })) }) := by
    unfold handle_take
    simp [optTruthy, hoid, hobj, hos, hnotinv, hnotinv', htk, hloc, Game.get_objectV,
      hroomobj, GameState.add_to_inventory, hninv, GameState.move_object, hninvmem]
  rw [hred1]
  -- the state after TAKE
  set st1 : GameState :=
    { st with inventory := st.inventory ++ [oid],
              objects := (assocUpdate st.objects oid
                (fun os => { os with location := .str "inventory" })) } with hst1
  have hmem1 : oid ∈ st1.inventory := by
    rw [hst1]; exact List.mem_append_right _ (List.mem_singleton.mpr rfl)
  have hcontains1 : st1.inventory.contains oid = true := by
    simp [List.contains, List.elem_eq_mem, hmem1]
  have herase : st1.inventory.erase oid = st.inventory := by
    rw [hst1]
    show (st.inventory ++ [oid]).erase oid = st.inventory
    rw [List.erase_append_right _ hninvmem, List.erase_cons_head]
    simp
  have hred2 :
      handle_drop { verb := .DROP, direct_object_id := some oid } game st1 =
        ({ message := "Dropped.", success := true },
         { st1 with inventory := st.inventory,
                    objects := (assocUpdate st1.objects oid
                      (fun os => { os with location := .str st.current_room })) }) := by
    have herase' : (st.inventory ++ [oid]).erase oid = st.inventory := by
      rw [List.erase_append_right _ hninvmem, List.erase_cons_head]
      simp
    unfold handle_drop
    simp [optTruthy, hoid, hobj, GameState.is_in_inventory, hcontains1, hdp,
      GameState.remove_from_inventory, GameState.move_object, herase']
  rw [hred2]
  refine ⟨rfl, rfl, rfl, hninvmem, ?_⟩
  have : assocGet st1.objects oid =
      some { os with location := .str "inventory" } := by
    rw [hst1]
    show assocGet (assocUpdate st.objects oid _) oid = _
    rw [assocGet_assocUpdate_self, hos]
    rfl
  show ((assocGet (assocUpdate st1.objects oid _) oid).map ObjectState.location) = _
  rw [assocGet_assocUpdate_self, this]
  rfl

/-- The C7 witness world: a takeable, droppable lamp in a cave. -/
def c7Game : Game :=
  { rooms := [{ id := "cave", name := "Cave", description := "A cave." }],
    objects := [{ id := "lamp", name := "lamp", description := "A lamp.",
                  location := "cave" }],
    initial_state := { current_room := "cave" },
    win_condition := .mk .flag_set Option.none Option.none (some "w") [] "W" }

/-- A closed instance discharging the hypotheses of
`c7_take_drop_roundtrip` at a concrete take/drop pair. -/
theorem c7_take_drop_roundtrip_witness :
    (handle_drop { verb := .DROP, direct_object_id := some "lamp" } c7Game
      (handle_take { verb := .TAKE, direct_object_id := some "lamp" } c7Game
        (GameState.from_game c7Game)).2).2.inventory =
      (GameState.from_game c7Game).inventory ∧
    ((assocGet (handle_drop { verb := .DROP, direct_object_id := some "lamp" } c7Game
        (handle_take { verb := .TAKE, direct_object_id := some "lamp" } c7Game
          (GameState.from_game c7Game)).2).2.objects "lamp").map
      ObjectState.location) =
      some (.str (GameState.from_game c7Game).current_room) :=
  ⟨(c7_take_drop_roundtrip c7Game (GameState.from_game c7Game) "lamp"
      { id := "lamp", name := "lamp", description := "A lamp.", location := "cave" }
      { location := .str "cave" } (by decide) rfl rfl rfl (by decide) rfl rfl rfl
      rfl).2.2.1,
   (c7_take_drop_roundtrip c7Game (GameState.from_game c7Game) "lamp"
      { id := "lamp", name := "lamp", description := "A lamp.", location := "cave" }
      { location := .str "cave" } (by decide) rfl rfl rfl (by decide) rfl rfl rfl
      rfl).2.2.2.2⟩

/-! ## Claim C6 — locked exits block movement without mutation -/

/-- C6: when the input parses to a bare movement command whose direction
maps to a locked `Exit` record in the current room, the turn entry point
returns exactly the exit's configured `lock_message` marked as an error
and the entire state is unchanged. -/
theorem c6_locked_exit_no_mutation (game : Game) (st : GameState) (input : String)
    (cmd : Command) (room : Room) (e : Exit)
    (hgo : st.game_over = false)
    (hp : (GameParser.init game).parse input = ParseResult.ok cmd)
    (hv : cmd.verb ∈ DIRECTION_VERBS)
    (hdo : cmd.direct_object = Option.none)
    (hroom : game.get_room st.current_room = some room)
    (hexit : assocGet room.exits (directionName cmd.verb) = some (.exitRec e))
    (hlocked : e.locked = true) :
    process_input game st input =
      ({ message := e.lock_message, error := true }, st) := by
  have hmv : _handle_movement game st cmd.verb =
      ({ message := e.lock_message, error := true }, st) := by
    unfold _handle_movement
    simp only [hroom, hexit, hlocked, if_true]
  have hvs := hv
  simp only [DIRECTION_VERBS, List.mem_cons, List.mem_singleton,
    List.not_mem_nil, or_false] at hvs
  unfold process_input
  rcases hvs with h|h|h|h|h|h|h|h <;>
  · rw [h] at hmv
    simp [hgo, hp, ParseResult.ok, h, hdo, optTruthy, hmv]

/-- The C6 witness world: a locked north exit. -/
def c6Game : Game :=
  { rooms := [
      { id := "start", name := "Start", description := "A room.",
        exits := [("north", .exitRec { target := "vault", locked := true,
                                       lock_message := "The vault door is locked." })] },
      { id := "vault", name := "Vault", description := "The vault." }],
    initial_state := { current_room := "start" },
    win_condition := .mk .flag_set Option.none Option.none (some "w") [] "W" }

/-- A closed instance discharging the hypotheses of
`c6_locked_exit_no_mutation` on input `north` before a locked exit. -/
theorem c6_locked_exit_no_mutation_witness :
    process_input c6Game (GameState.from_game c6Game) "north" =
      ({ message := "The vault door is locked.", error := true },
       GameState.from_game c6Game) :=
  c6_locked_exit_no_mutation c6Game (GameState.from_game c6Game) "north"
    { verb := .NORTH, raw_input := "north" }
    { id := "start", name := "Start", description := "A room.",
      exits := [("north", .exitRec { target := "vault", locked := true,
                                     lock_message := "The vault door is locked." })] }
    { target := "vault", locked := true, lock_message := "The vault door is locked." }
    rfl rfl (by decide) rfl rfl rfl rfl



/-! ## Claim C5 — ambiguity and adjective disambiguation -/

theorem String.mk_data (s : String) : String.mk s.data = s := rfl

theorem string_data_append (a b : String) : (a ++ b).data = a.data ++ b.data := rfl

theorem pyToLower_append (a b : String) :
    pyToLower (a ++ b) = pyToLower a ++ pyToLower b := by
  show String.mk ((a ++ b).data.map Char.toLower) = _
  rw [string_data_append, List.map_append]
  rfl

theorem string_length_append (a b : String) : (a ++ b).length = a.length + b.length := by
  show (a ++ b).data.length = a.data.length + b.data.length
  rw [string_data_append, List.length_append]

theorem dropWhile_eq_self_of_head {p : Char → Bool} (l : List Char)
    (h : ∀ c, l.head? = some c → p c = false) : l.dropWhile p = l := by
  cases l with
  | nil => rfl
  | cons c cs => rw [List.dropWhile_cons, h c rfl]; simp

theorem pyTrim_eq_self (s : String)
    (hh : ∀ c, s.data.head? = some c → c.isWhitespace = false)
    (hl : ∀ c, s.data.getLast? = some c → c.isWhitespace = false) :
    pyTrim s = s := by
  unfold pyTrim
  rw [dropWhile_eq_self_of_head _ hh]
  rw [dropWhile_eq_self_of_head _ (fun c hc => hl c (by rwa [List.head?_reverse] at hc))]
  rw [List.reverse_reverse]

theorem pySplit_go_no_ws (l cur : List Char)
    (h : ∀ c ∈ l, c.isWhitespace = false) :
    pySplit.go l cur =
      if (cur.reverse ++ l).isEmpty then [] else [String.mk (cur.reverse ++ l)] := by
  induction l generalizing cur with
  | nil => simp [pySplit.go, List.isEmpty_iff, List.isEmpty_eq_true]
  | cons c cs ih =>
      rw [pySplit.go]
      rw [h c (List.mem_cons_self c cs)]
      rw [ih (c :: cur) (fun x hx => h x (List.mem_cons_of_mem _ hx))]
      simp
  -- goal shapes may need adjusting

theorem pySplit_single (s : String) (h0 : s ≠ "")
    (hw : ∀ c ∈ s.data, c.isWhitespace = false) : pySplit s = [s] := by
  unfold pySplit
  rw [pySplit_go_no_ws _ _ hw]
  simp only [List.reverse_nil, List.nil_append]
  have hne : s.data ≠ [] := fun h => h0 (by cases s; simp_all)
  rw [if_neg (by simp [List.isEmpty_iff, hne])]

theorem pySplit_go_mid (l₁ l₂ cur : List Char)
    (h : ∀ c ∈ l₁, c.isWhitespace = false) :
    pySplit.go (l₁ ++ ' ' :: l₂) cur =
      (if (cur.reverse ++ l₁).isEmpty then pySplit.go l₂ []
       else String.mk (cur.reverse ++ l₁) :: pySplit.go l₂ []) := by
  induction l₁ generalizing cur with
  | nil =>
      simp only [List.nil_append, List.append_nil]
      rw [pySplit.go]
      norm_num [Char.isWhitespace]
  | cons c cs ih =>
      rw [List.cons_append, pySplit.go]
      rw [h c (List.mem_cons_self c cs)]
      rw [ih (c :: cur) (fun x hx => h x (List.mem_cons_of_mem _ hx))]
      simp

theorem pySplit_two (a b : String) (ha0 : a ≠ "") (hb0 : b ≠ "")
    (haw : ∀ c ∈ a.data, c.isWhitespace = false)
    (hbw : ∀ c ∈ b.data, c.isWhitespace = false) :
    pySplit (a ++ " " ++ b) = [a, b] := by
  unfold pySplit
  have : (a ++ " " ++ b).data = a.data ++ ' ' :: b.data := by
    rw [string_data_append, string_data_append]
    have hsp : (" " : String).data = [' '] := rfl
    rw [hsp, List.append_assoc]
    rfl
  rw [this, pySplit_go_mid _ _ _ haw]
  have hane : a.data ≠ [] := fun h => ha0 (by cases a; simp_all)
  rw [if_neg (by simp [List.isEmpty_iff, hane])]
  rw [pySplit_go_no_ws _ _ hbw]
  have hbne : b.data ≠ [] := fun h => hb0 (by cases b; simp_all)
  simp [List.isEmpty_iff, hbne]

theorem string_ne_of_length {a b : String} (h : a.length ≠ b.length) : a ≠ b :=
  fun he => h (congrArg String.length he)

theorem string_length_pos (a : String) (h : a ≠ "") : 0 < a.length := by
  have : a.data ≠ [] := fun hd => h (by cases a; simp_all)
  exact List.length_pos.mpr this

theorem append_len (a b : String) :
    (a ++ " " ++ b).length = a.length + 1 + b.length := by
  rw [string_length_append, string_length_append]
  rfl

theorem phrase_ne_empty (a b : String) (ha : a ≠ "") : (a ++ " " ++ b) ≠ "" := by
  apply string_ne_of_length
  rw [append_len a b]
  have := string_length_pos a ha
  show _ ≠ String.length ""
  have h0 : String.length "" = 0 := rfl
  omega

theorem name_ne_phrase (a b : String) (ha : a ≠ "") : b ≠ (a ++ " " ++ b) := by
  apply string_ne_of_length
  rw [append_len a b]
  have := string_length_pos a ha
  omega

/-- Rule 2 of `match_object`: two visible objects sharing a display name
both exact-name-match the bare name. -/
theorem c5_match_bare (o1 o2 : GameObject) (nm : String)
    (hn1 : o1.name = nm) (hn2 : o2.name = nm)
    (hnm0 : nm ≠ "") (hnmw : ∀ c ∈ nm.data, c.isWhitespace = false)
    (hlow : pyToLower nm = nm)
    (hid1 : (o1.id == pyReplace nm " " "_") = false)
    (hid2 : (o2.id == pyReplace nm " " "_") = false) :
    match_object nm [o1, o2] = [o1, o2] := by
  have htrim : pyTrim (pyToLower nm) = nm := by
    rw [hlow]
    exact pyTrim_eq_self nm
      (fun c hc => hnmw c (by cases h : nm.data <;> simp_all))
      (fun c hc => hnmw c (List.mem_of_mem_getLast? hc))
  unfold match_object
  simp only [htrim, pySplit_single nm hnm0 hnmw]
  simp [List.find?, hid1, hid2, hn1, hn2, hlow, hnm0]

/-- Rule 3 of `match_object`: an adjective unique to the second object
scores only that object, so the qualified phrase matches it alone. -/
theorem c5_match_adjective (o1 o2 : GameObject) (nm adj : String)
    (hn1 : o1.name = nm) (hn2 : o2.name = nm)
    (hnm0 : nm ≠ "") (hnmw : ∀ c ∈ nm.data, c.isWhitespace = false)
    (hlow : pyToLower nm = nm)
    (had0 : adj ≠ "") (hadw : ∀ c ∈ adj.data, c.isWhitespace = false)
    (hadlow : pyToLower adj = adj)
    (hid1 : (o1.id == pyReplace (adj ++ " " ++ nm) " " "_") = false)
    (hid2 : (o2.id == pyReplace (adj ++ " " ++ nm) " " "_") = false)
    (ha1 : (o1.adjectives.map pyToLower).contains adj = false)
    (ha2 : (o2.adjectives.map pyToLower).contains adj = true) :
    match_object (adj ++ " " ++ nm) [o1, o2] = [o2] := by
  have hane : adj.data ≠ [] := fun h => had0 (by cases adj; simp_all)
  have hbne : nm.data ≠ [] := fun h => hnm0 (by cases nm; simp_all)
  have hlowp : pyToLower (adj ++ " " ++ nm) = adj ++ " " ++ nm := by
    rw [pyToLower_append, pyToLower_append, hadlow, hlow]
    rfl
  have hdata : (adj ++ " " ++ nm).data = adj.data ++ ' ' :: nm.data := by
    rw [string_data_append, string_data_append]
    have hsp : (" " : String).data = [' '] := rfl
    rw [hsp, List.append_assoc]
    rfl
  have htrim : pyTrim (pyToLower (adj ++ " " ++ nm)) = adj ++ " " ++ nm := by
    rw [hlowp]
    apply pyTrim_eq_self
    · intro c hc
      rw [hdata] at hc
      cases hadj : adj.data with
      | nil => exact absurd hadj hane
      | cons x xs =>
          rw [hadj, List.cons_append, List.head?_cons] at hc
          have hxc : x = c := Option.some.inj hc
          exact hadw c (by rw [hadj, ← hxc]; exact List.mem_cons_self _ _)
    · intro c hc
      have hdata' : (adj ++ " " ++ nm).data = (adj.data ++ [' ']) ++ nm.data := by
        rw [string_data_append, string_data_append]
      rw [hdata', List.getLast?_append_of_ne_nil _ hbne] at hc
      exact hnmw c (List.mem_of_mem_getLast? hc)
  have hsplit : pySplit (adj ++ " " ++ nm) = [adj, nm] :=
    pySplit_two adj nm had0 hnm0 hadw hnmw
  have hne2 : ¬ (nm = adj ++ " " ++ nm) := name_ne_phrase adj nm had0
  have hne1 : ¬ (adj ++ " " ++ nm = "") := phrase_ne_empty adj nm had0
  have hj2 : joinSp [adj, nm] = adj ++ " " ++ nm := rfl
  have hj1 : joinSp [nm] = nm := rfl
  have ha1e : ¬ ∃ a ∈ o1.adjectives, pyToLower a = adj := by simpa using ha1
  have ha2e : ∃ a ∈ o2.adjectives, pyToLower a = adj := by simpa using ha2
  have hs1 : score_match o1 [adj, nm] = -1 := by
    unfold score_match
    rw [hn1, hlow, scoreFrom, scoreFrom, scoreFrom]
    simp [hj2, hj1, hne1, hne2, hnm0, ha1e]
  have hs2 : score_match o2 [adj, nm] = 1 := by
    unfold score_match
    rw [hn2, hlow, scoreFrom, scoreFrom, scoreFrom]
    simp [hj2, hj1, hne1, hne2, hnm0, ha2e]
  unfold match_object
  simp only [htrim, hsplit]
  simp [List.find?, hid1, hid2, hn1, hn2, hlow, hne2, hs1, hs2]

/-- C5: with exactly two visible objects of identical display name and an
adjective belonging only to the second, resolving the bare name is
AMBIGUOUS carrying exactly the two candidates' names, and resolving
`adjective name` yields exactly the second object's id. -/
theorem c5_ambiguity_and_adjectives (game : Game) (st : GameState)
    (o1 o2 : GameObject) (nm adj : String) (v : Verb)
    (hvis : get_visible_objects game st = [o1, o2])
    (hn1 : o1.name = nm) (hn2 : o2.name = nm)
    (hnm0 : nm ≠ "") (hnmw : ∀ c ∈ nm.data, c.isWhitespace = false)
    (hlow : pyToLower nm = nm)
    (had0 : adj ≠ "") (hadw : ∀ c ∈ adj.data, c.isWhitespace = false)
    (hadlow : pyToLower adj = adj)
    (hid1 : (o1.id == pyReplace nm " " "_") = false)
    (hid2 : (o2.id == pyReplace nm " " "_") = false)
    (hid1' : (o1.id == pyReplace (adj ++ " " ++ nm) " " "_") = false)
    (hid2' : (o2.id == pyReplace (adj ++ " " ++ nm) " " "_") = false)
    (ha1 : (o1.adjectives.map pyToLower).contains adj = false)
    (ha2 : (o2.adjectives.map pyToLower).contains adj = true) :
    (resolve game st { verb := v, direct_object := some nm, raw_input := nm }).error_type =
      some .AMBIGUOUS ∧
    (resolve game st
        { verb := v, direct_object := some nm, raw_input := nm }).ambiguous_objects =
      some [o1.name, o2.name] ∧
    (resolve game st
        { verb := v, direct_object := some (adj ++ " " ++ nm),
          raw_input := adj ++ " " ++ nm }).resolved =
      some { verb := v, direct_object_id := some o2.id,
             raw_input := adj ++ " " ++ nm } := by
  have hm1 := c5_match_bare o1 o2 nm hn1 hn2 hnm0 hnmw hlow hid1 hid2
  have hm2 := c5_match_adjective o1 o2 nm adj hn1 hn2 hnm0 hnmw hlow had0 hadw hadlow
    hid1' hid2' ha1 ha2
  have hp0 : (adj ++ " " ++ nm) ≠ "" := phrase_ne_empty adj nm had0
  refine ⟨?_, ?_, ?_⟩ <;>
  · unfold resolve
    simp [hvis, hm1, hm2, optTruthy, hnm0, hp0, ResolutionResult.ambiguous,
      ResolutionResult.okRes]

/-- The brass key of the C5 witness world. -/
def c5Brass : GameObject :=
  { id := "bkey", name := "key", adjectives := ["brass", "small"],
    description := "A brass key.", location := "room1" }

/-- The silver key of the C5 witness world. -/
def c5Silver : GameObject :=
  { id := "skey", name := "key", adjectives := ["silver", "large"],
    description := "A silver key.", location := "room1" }

/-- The C5 witness world: two keys in one room. -/
def c5Game : Game :=
  { rooms := [{ id := "room1", name := "Room", description := "A room." }],
    objects := [c5Brass, c5Silver],
    initial_state := { current_room := "room1" },
    win_condition := .mk .flag_set Option.none Option.none (some "w") [] "W" }

/-- A closed instance discharging the hypotheses of
`c5_ambiguity_and_adjectives` at the brass/silver key scenario. -/
theorem c5_ambiguity_and_adjectives_witness :
    (resolve c5Game (GameState.from_game c5Game)
        { verb := .TAKE, direct_object := some "key", raw_input := "key" }).error_type =
      some .AMBIGUOUS ∧
    (resolve c5Game (GameState.from_game c5Game)
        { verb := .TAKE, direct_object := some "key",
          raw_input := "key" }).ambiguous_objects = some ["key", "key"] ∧
    (resolve c5Game (GameState.from_game c5Game)
        { verb := .TAKE, direct_object := some "silver key",
          raw_input := "silver key" }).resolved =
      some { verb := .TAKE, direct_object_id := some "skey",
             raw_input := "silver key" } :=
  c5_ambiguity_and_adjectives c5Game (GameState.from_game c5Game) c5Brass c5Silver
    "key" "silver" Verb.TAKE rfl rfl rfl (by decide) (by decide) rfl (by decide)
    (by decide) rfl rfl rfl rfl rfl rfl rfl


/-! ## Claim C3 — direction-first parsing -/

/-- A successful ordered-dict lookup returns one of the stored values. -/
theorem assocGet_value_mem {α : Type} (l : List (String × α)) (k : String) (v : α)
    (h : assocGet l k = some v) : v ∈ l.map Prod.snd := by
  induction l with
  | nil => exact Option.noConfusion h
  | cons p rest ih =>
      rw [assocGet] at h
      split at h
      · exact (Option.some.inj h) ▸ List.mem_cons_self _ _
      · exact List.mem_cons_of_mem _ (ih h)

/-- Every value of `DIRECTION_WORDS` is a movement verb. -/
theorem dir_words_value_mem {w : String} {dv : Verb}
    (h : assocGet DIRECTION_WORDS w = some dv) : dv ∈ DIRECTION_VERBS := by
  have hmem := assocGet_value_mem _ _ _ h
  cases dv <;> revert hmem <;> decide

/-- C3 (amended): when the first word of an input is a direction word and
the first two words are not a registered two-word verb phrase, the parser
returns a bare direction command only when the word is NOT also a verb
alias (e.g. `inside`, `outside`); when it is a verb alias mapping to the
same direction verb (all the other direction words), any following words
are attached as the command's direct-object phrase instead of being
ignored. -/
theorem c3_amended_direction_parsing (input w : String) (rest : List String) (dv : Verb)
    (hraw : pyTrim input ≠ "")
    (hwords : tokens_to_words (tokenize (pyTrim input)) = w :: rest)
    (hdir : assocGet DIRECTION_WORDS w = some dv)
    (hmw : ∀ r0 rs, rest = r0 :: rs → mwLookup w r0 = Option.none) :
    (assocGet VERB_ALIASES w = Option.none →
      parse input = ParseResult.ok { verb := dv, raw_input := pyTrim input }) ∧
    (assocGet VERB_ALIASES w = some dv →
      parse input = ParseResult.ok
        { verb := dv,
          direct_object := if rest.isEmpty then Option.none else some (joinSp rest),
          raw_input := pyTrim input }) := by
  have hdv := dir_words_value_mem hdir
  have hcases : dv = Verb.NORTH ∨ dv = Verb.SOUTH ∨ dv = Verb.EAST ∨ dv = Verb.WEST ∨
      dv = Verb.UP ∨ dv = Verb.DOWN ∨ dv = Verb.IN ∨ dv = Verb.OUT := by
    simpa [DIRECTION_VERBS] using hdv
  have hfacts : dv ≠ Verb.GO ∧ dv ≠ Verb.LOOK ∧
      VERBS_REQUIRING_OBJECT.contains dv = false ∧
      VERBS_WITH_INDIRECT.contains dv = false := by
    rcases hcases with rfl|rfl|rfl|rfl|rfl|rfl|rfl|rfl <;>
      exact ⟨by decide, by decide, by decide, by decide⟩
  obtain ⟨hgo, hlook, hro, hwi⟩ := hfacts
  have hro' : dv ∉ VERBS_REQUIRING_OBJECT := by simpa using hro
  have hwi' : dv ∉ VERBS_WITH_INDIRECT := by simpa using hwi
  have htne : (tokenize (pyTrim input)).isEmpty = false := by
    cases htk : tokenize (pyTrim input) with
    | nil => rw [htk] at hwords; simp [tokens_to_words] at hwords
    | cons t ts => rfl
  have hparse : parse input = parseFromWords (w :: rest) (pyTrim input) := by
    unfold parse
    simp [hraw, htne, hwords]
  constructor
  · intro halias
    rw [hparse]
    unfold parseFromWords
    cases rest with
    | nil => simp [halias, hdir]
    | cons r0 rs => simp [hmw r0 rs rfl, halias, hdir]
  · intro halias
    rw [hparse]
    unfold parseFromWords
    cases rest with
    | nil => simp [halias, hgo, hlook, hro, hwi, hro', hwi']
    | cons r0 rs => simp [hmw r0 rs rfl, halias, hgo, hlook, hro, hwi, hro', hwi']



/-- C3 (counterexample): `north` is a direction word, yet parsing
`north lamp` yields a direction command carrying direct object `lamp`,
because `north` is found in `VERB_ALIASES` before `DIRECTION_WORDS` is
consulted. -/
theorem c3_direction_object_counterexample :
    assocGet DIRECTION_WORDS "north" = some Verb.NORTH ∧
    parse "north lamp" =
      ParseResult.ok { verb := Verb.NORTH, direct_object := some "lamp",
                       raw_input := "north lamp" } :=
  ⟨rfl, rfl⟩

/-- A closed instance discharging the hypotheses of
`c3_amended_direction_parsing` on both branches. -/
theorem c3_amended_direction_parsing_witness :
    parse "north lamp" =
      ParseResult.ok { verb := Verb.NORTH, direct_object := some "lamp",
                       raw_input := "north lamp" } ∧
    parse "inside cave" =
      ParseResult.ok { verb := Verb.IN, raw_input := "inside cave" } :=
  ⟨(c3_amended_direction_parsing "north lamp" "north" ["lamp"] Verb.NORTH
      (by decide) rfl rfl (fun r0 rs h => by cases h; rfl)).2 rfl,
   (c3_amended_direction_parsing "inside cave" "inside" ["cave"] Verb.IN
      (by decide) rfl rfl (fun r0 rs h => by cases h; rfl)).1 rfl⟩

end TextAdventure
